import Mathlib

/-!
Shallow embedding of `server/network/aoprotocol.py` (tsuserver3).

The embedding models the protocol class `AOProtocol`: the frame
extractor (`get_messages` / `data_received`), the argument validator
(`validate_net_cmd` with the `ArgType` enum), and the command handlers
the claims touch (`net_cmd_hi`, `net_cmd_ms`, `net_cmd_ct`,
`net_cmd_pe`, `net_cmd_de`, `net_cmd_ee`).

Python dynamic values that flow through argument lists are modelled by
`PyVal` (a string or an int); Python exceptions that can escape a
handler are modelled by `Except PyExc`.  Collaborator objects that live
outside this source file (the area, the client manager, the database,
`fanta_decrypt`, the OOC command registry) are modelled as oracle
functions carried in a context structure: the control flow of the
protocol code itself is translated line by line, while the collaborator
calls are left as parameters.  Outbound traffic and logging are
modelled as a list of `Event`s in the order they are emitted.
-/

namespace AO

/-- A Python value as it appears in a net-command argument list:
either a string (as received from the wire) or an int (after the
validator coerced the slot in place). -/
inductive PyVal where
  | str (s : String)
  | int (n : Int)
deriving DecidableEq, Repr

/-- Python `str(v)`. -/
def pyStrOf : PyVal → String
  | PyVal.str s => s
  | PyVal.int n => toString n

/-- Python `==` between two dynamic values: values of different types
are never equal (no booleans occur in this protocol code). -/
def pyEqB : PyVal → PyVal → Bool
  | PyVal.str a, PyVal.str b => a == b
  | PyVal.int a, PyVal.int b => a == b
  | _, _ => false

/-- Python `!=` between two dynamic values. -/
def pyNeB (a b : PyVal) : Bool := !(pyEqB a b)

/-- Python `v in (n1, n2, ...)` for a tuple of int literals, as in
`button in (1, 2, 3, 4, 23)`. -/
def pyInInts (v : PyVal) (ns : List Int) : Bool :=
  ns.any (fun n => pyEqB v (PyVal.int n))

/-- ASCII whitespace recognised by Python `str.strip` / `str.rstrip`
(the rare non-ASCII Unicode whitespace characters are not modelled). -/
def pyIsSpace (c : Char) : Bool :=
  c == ' ' || c == '\t' || c == '\n' || c == '\r' || c == '\x0b' || c == '\x0c'

/-- Python `s.rstrip()`. -/
def pyRstrip (s : String) : String :=
  ⟨(s.data.reverse.dropWhile pyIsSpace).reverse⟩

/-- Python `s.strip()`. -/
def pyStrip (s : String) : String :=
  ⟨((s.data.dropWhile pyIsSpace).reverse.dropWhile pyIsSpace).reverse⟩

/-- Python `c in s` (substring membership of a single character).
All string helpers below recurse structurally on the character list so
that concrete runs reduce inside the kernel. -/
def pyContains (s : String) (c : Char) : Bool :=
  s.data.any (fun d => d == c)

/-- Python slicing `s[:n]`. -/
def pyTake (s : String) (n : Nat) : String := ⟨s.data.take n⟩

/-- Python slicing `s[n:]`. -/
def pyDrop (s : String) (n : Nat) : String := ⟨s.data.drop n⟩

/-- Python `s.startswith(pre)`. -/
def pyStartsWith (s pre : String) : Bool :=
  pre.data.isPrefixOf s.data

/-- Python `s[0]` (only used where the caller has ensured `s` is
non-empty). -/
def pyHead (s : String) : Char := s.data.headD ' '

/-- Python `sep.join(parts)`. -/
def pyJoin (sep : String) : List String → String
  | [] => ""
  | [x] => x
  | x :: xs => x ++ sep ++ pyJoin sep xs

/-- Python `s.lower()` (ASCII). -/
def pyToLower (s : String) : String := ⟨s.data.map Char.toLower⟩

/-- Worker for `pySplit`: `fuel` bounds the number of characters still
to be scanned, so the recursion is structural. -/
def pySplitAux (sep : List Char) : Nat → List Char → List Char → List (List Char)
  | 0, rest, acc => [acc.reverse ++ rest]
  | _ + 1, [], acc => [acc.reverse]
  | fuel + 1, c :: cs, acc =>
    if sep.isPrefixOf (c :: cs) then
      acc.reverse :: pySplitAux sep fuel (List.drop (sep.length - 1) cs) []
    else pySplitAux sep fuel cs (c :: acc)

/-- Python `s.split(sep)` for a non-empty separator: every
non-overlapping occurrence splits, and adjacent separators produce
empty fields. -/
def pySplit (s : String) (sep : String) : List String :=
  (pySplitAux sep.data (s.data.length + 1) s.data []).map (fun l => ⟨l⟩)

/-- Python `int(s)` digit parsing (worker). -/
def pyDigitsToNat (l : List Char) : Nat :=
  l.foldl (fun acc c => acc * 10 + (c.toNat - 48)) 0

/-- The digits-only part of Python `int(s)`. -/
def pyStrToNat? (s : String) : Option Nat :=
  if s.data ≠ [] ∧ s.data.all Char.isDigit then some (pyDigitsToNat s.data)
  else none

/-- Python `int(s)` on a string: optional surrounding whitespace, an
optional sign, then decimal digits; anything else raises `ValueError`
(`none` here).  PEP-515 underscores are not modelled. -/
def pyParseInt (s : String) : Option Int :=
  let t := pyStrip s
  if pyStartsWith t "-" then (pyStrToNat? (pyDrop t 1)).map (fun n => -(n : Int))
  else if pyStartsWith t "+" then (pyStrToNat? (pyDrop t 1)).map (fun n => (n : Int))
  else (pyStrToNat? t).map (fun n => (n : Int))

/-- Python `int(v)` on a dynamic value. -/
def pyToInt : PyVal → Option Int
  | PyVal.int n => some n
  | PyVal.str s => pyParseInt s

/-- Read an int out of a slot the validator has already coerced
(post-validation, every `INT` slot holds a `PyVal.int`). -/
def pyI : PyVal → Int
  | PyVal.int n => n
  | PyVal.str _ => 0

/-- Python `s.split(sep, 1)`: split on the first occurrence only. -/
def pySplit1 (s : String) (sep : Char) : List String :=
  let pre := s.data.takeWhile (fun c => c != sep)
  let post := s.data.dropWhile (fun c => c != sep)
  match post with
  | [] => [⟨pre⟩]
  | _ :: rest => [⟨pre⟩, ⟨rest⟩]

/-- Python `str.isdigit` (restricted to ASCII digits). -/
def pyIsDigit (s : String) : Bool :=
  s.length != 0 && s.data.all Char.isDigit

/-- Translate a Python index into a list of length `len`, with the
negative-index wraparound of Python sequences. -/
def pyIdx (len : Nat) (i : Int) : Option Nat :=
  let j := if i < 0 then i + len else i
  if 0 ≤ j ∧ j < len then some j.toNat else none

/-- A Python exception escaping (or aborting) a handler. -/
inductive PyExc where
  | protocolError
  | keyError
  | valueError
  | indexError
  | attributeError
  | areaError
deriving DecidableEq, Repr

/-- The value carried by an `ArgType` enum member.  In the source the
first three members are written with a trailing comma (`STR = 1,`), so
their values are the one-element tuples `(1,)`, `(2,)`, `(3,)`, while
`INT_OR_STR = 3` carries the plain int `3`. -/
inductive EnumVal where
  | int (n : Int)
  | tuple (ns : List Int)
deriving DecidableEq, Repr

/-- `AOProtocol.ArgType`: the data type of an argument of a network
command.  Python `Enum` aliases two names only when their values are
equal; `(3,) != 3`, so all four names are distinct members and the
inductive with four constructors is the faithful model. -/
inductive ArgType where
  | STR
  | STR_OR_EMPTY
  | INT
  | INT_OR_STR
deriving DecidableEq, Repr

/-- The `value` of each `ArgType` member, showing why `INT_OR_STR` is
not an alias of `INT`. -/
def argTypeValue : ArgType → EnumVal
  | ArgType.STR => EnumVal.tuple [1]
  | ArgType.STR_OR_EMPTY => EnumVal.tuple [2]
  | ArgType.INT => EnumVal.tuple [3]
  | ArgType.INT_OR_STR => EnumVal.int 3

/-- The per-slot loop of `validate_net_cmd`: for each argument, fail if
it is empty and its slot is not `STR_OR_EMPTY`; coerce the slot in
place when the slot is `INT` (failing on unparsable ints).  The
returned list carries the in-place coercions made so far, also on
failure, mirroring the mutation of the caller's `args` list. -/
def validateLoop : List PyVal → List ArgType → Bool × List PyVal
  | [], _ => (true, [])
  | a :: as, [] => (true, a :: as)
  | a :: as, t :: ts =>
    if (pyStrOf a).length = 0 ∧ t ≠ ArgType.STR_OR_EMPTY then (false, a :: as)
    else if t = ArgType.INT then
      match pyToInt a with
      | some n =>
        let r := validateLoop as ts
        (r.1, PyVal.int n :: r.2)
      | none => (false, a :: as)
    else
      let r := validateLoop as ts
      (r.1, a :: r.2)

/-- `AOProtocol.validate_net_cmd(self, args, *types, needs_auth=True)`.
`char_id` is `self.client.char_id`.  Returns the validation verdict
together with the (possibly in-place-coerced) argument list. -/
def validate_net_cmd (char_id : Int) (args : List PyVal) (types : List ArgType)
    (needs_auth : Bool) : Bool × List PyVal :=
  if needs_auth ∧ char_id = -1 then (false, args)
  else if args.length ≠ types.length then (false, args)
  else validateLoop args types

/-- A character scrubbed by `dezalgo`: the five combining-mark Unicode
blocks plus the three filler code points listed in its docstring. -/
def isZalgoChar (c : Char) : Bool :=
  (0x300 ≤ c.toNat && c.toNat ≤ 0x36f) ||
  (0x1ab0 ≤ c.toNat && c.toNat ≤ 0x1aff) ||
  (0x1dc0 ≤ c.toNat && c.toNat ≤ 0x1dff) ||
  (0x20d0 ≤ c.toNat && c.toNat ≤ 0x20ff) ||
  (0xfe20 ≤ c.toNat && c.toNat ≤ 0xfe2f) ||
  c.toNat = 0x115f || c.toNat = 0x1160 || c.toNat = 0x3164

/-- A run of combining characters is deleted when its length reaches
the tolerance (the regex `[...]{tol,}` deletes every maximal run of
length at least `tol`; with `tol = 0` the pattern `{0,}` deletes every
non-empty run). -/
def dezalgoFlush (tol : Nat) (run : List Char) : List Char :=
  if tol ≤ run.length ∧ 1 ≤ run.length then [] else run

/-- Single pass over the text, accumulating the current run of
combining characters in `run`. -/
def dezalgoAux (tol : Nat) (run : List Char) : List Char → List Char
  | [] => dezalgoFlush tol run
  | c :: cs =>
    if isZalgoChar c then dezalgoAux tol (run ++ [c]) cs
    else dezalgoFlush tol run ++ c :: dezalgoAux tol [] cs

/-- `AOProtocol.dezalgo`: scrub runs of combining/filler characters
whose length reaches `self.server.zalgo_tolerance`. -/
def dezalgo (tol : Nat) (input : String) : String :=
  ⟨dezalgoAux tol [] input.data⟩

/-- Unicode general category `Cf` (format characters), as tested by
`unicodedata.category(c) == 'Cf'` in `net_cmd_ct`. -/
def isCf (c : Char) : Bool :=
  c.toNat = 0xad ||
  (0x600 ≤ c.toNat && c.toNat ≤ 0x605) ||
  c.toNat = 0x61c || c.toNat = 0x6dd || c.toNat = 0x70f ||
  c.toNat = 0x8e2 || c.toNat = 0x180e ||
  (0x200b ≤ c.toNat && c.toNat ≤ 0x200f) ||
  (0x202a ≤ c.toNat && c.toNat ≤ 0x202e) ||
  (0x2060 ≤ c.toNat && c.toNat ≤ 0x2064) ||
  (0x2066 ≤ c.toNat && c.toNat ≤ 0x206f) ||
  c.toNat = 0xfeff ||
  (0xfff9 ≤ c.toNat && c.toNat ≤ 0xfffb) ||
  c.toNat = 0x110bd || c.toNat = 0x110cd ||
  (0x13430 ≤ c.toNat && c.toNat ≤ 0x13438) ||
  (0x1bca0 ≤ c.toNat && c.toNat ≤ 0x1bca3) ||
  (0x1d173 ≤ c.toNat && c.toNat ≤ 0x1d17a) ||
  c.toNat = 0xe0001 ||
  (0xe0020 ≤ c.toNat && c.toNat ≤ 0xe007f)

/-- An observable effect of the protocol code, in emission order:
outbound frames (to the client, the room, the room owners, remote
rooms), evidence-list rebroadcasts, disconnects, database/log calls,
and the bookkeeping side effects the claims talk about. -/
inductive Event where
  | sendOoc (msg : String)
  | sendCommand (cmd : String) (args : List PyVal)
  | areaSend (cmd : String) (args : List PyVal)
  | ownerSend (cmd : String) (args : List PyVal)
  | remoteSend (areas : List Int) (cmd : String) (args : List PyVal)
  | broadcastEvidence
  | disconnect
  | logUnknown (msg : String)
  | logConnect (failed : Bool)
  | addHdid (ipid hdid : String)
  | logIC (showname msg : String)
  | logRoom (kind : String)
  | setNextMsgDelay (n : Nat)
  | toggleAfk
  | touchLastPkt
  | logException
  | ranCommand (cmd arg : String)
deriving DecidableEq, Repr

/-- The client fields the protocol code reads and writes. -/
structure Client where
  id : Nat
  char_id : Int
  is_checked : Bool
  is_muted : Bool
  is_ooc_muted : Bool
  showname : String
  charcurse : List String
  char_name : String
  charid_pair : Int
  offset_pair : String
  last_sprite : String
  flip : Int
  claimed_folder : String
  pos : String
  shaken : Bool
  disemvowel : Bool
  eviList : Int → Option Int
  name : String
  fake_name : String
  ipid : String
  hdid : String

/-- The area (room) state the protocol code reads and writes.  The
evidence list is modelled by the `pos` field of each item (the only
field `net_cmd_ms` touches). -/
structure Area where
  showname_changes_allowed : Bool
  blankposting_allowed : Bool
  non_int_pres_only : Bool
  shouts_allowed : Bool
  clients : List Client
  afkers : List Nat
  last_ic_message : Option (List PyVal)
  is_testifying : Bool
  is_examining : Bool
  is_recording : Bool
  examine_index : Int
  testimony_title : String
  testimony_statements : List (List PyVal)
  recorded_messages : List (List PyVal)
  evidences : List String
  abbreviation : String

/-- What `net_cmd_ms` needs to know about another area (for `/a` and
`/s`): its id, its name, and whether this connection's client is among
its owners. -/
structure AreaInfo where
  id : Int
  name : String
  owned : Bool

/-- A ban record, as consulted by `net_cmd_hi`. -/
structure Ban where
  reason : String
  ban_id : Int
  unban_date : Option Int

/-- Outcome of invoking an OOC command in the external registry:
normal return, a caught domain error (`ClientError`/`AreaError`/
`ArgumentError`/`ServerError`, rendered as a notice), or any other
exception (rendered as a generic notice and logged). -/
inductive OocRes where
  | ok
  | domainError (msg : String)
  | otherError
deriving DecidableEq, Repr

/-- Configuration and collaborator oracles for one connection.  Each
function field stands for a call into code outside this source file
(`self.client.area.*`, `self.server.*`, `database.*`, the command
registry); the protocol control flow never depends on how they are
implemented, only on their results. -/
structure Ctx where
  zalgo_tolerance : Nat
  max_chars : Option Int
  hostname : String
  can_send_message : Client → Bool
  client_can_additive : Client → Bool
  is_iniswap : Client → String → String → String → String → Bool
  get_area_by_id : Int → Option AreaInfo
  areas : List AreaInfo
  start_testimony : Client → String → Area → Bool × Area
  start_examination : Client → Area → Bool × Area
  end_testimony : Client → Area → Bool × Area
  amend_testimony : Client → Int → List PyVal → Area → Bool × Area
  remove_statement : Client → Int → Area → Bool × Area
  navigate_testimony : Client → String → Option Int → Area → Area
  add_statement : List PyVal → Area → Bool × Area
  shake_message : String → String
  disemvowel_message : String → String
  is_valid_name : String → Bool
  has_ooc_command : String → Bool
  run_ooc_command : String → String → OocRes
  find_ban : String → String → Option Ban
  humanize : Int → String
  add_evidence : Client → String → String → String → String → Area → Area
  del_evidence : Client → Int → Area → Area
  edit_evidence : Client → Int → String × String × String × String → Area → Area
  server_software : String
  server_version : String
  player_count : Int
  playerlimit : Int
  client_id : Int

/-! ## Frame extraction and command dispatch (`data_received` / `get_messages`) -/

/-- `self.buffer.translate({ord(c): None for c in '\0'})`: strip every
embedded null character. -/
def stripNulls (s : String) : String :=
  ⟨s.data.filter (fun c => c != '\x00')⟩

/-- `AOProtocol.get_messages`: raise a `ProtocolError` when the buffer
has reached 24 characters without a `#` field delimiter in that
prefix; otherwise repeatedly split off everything before a `#%`
terminator.  The generator is modelled eagerly: the returned pair is
the list of extracted frames and the retained remainder of the
buffer. -/
def get_messages (buffer : String) : Except PyExc (List String × String) :=
  if 24 ≤ buffer.length ∧ pyContains (pyTake buffer 24) '#' = false then
    Except.error PyExc.protocolError
  else
    let parts := pySplit buffer "#%"
    Except.ok (parts.dropLast, parts.getLastD "")

/-- The keys of the static `net_cmd_dispatcher` table. -/
def net_cmd_dispatcher_keys : List String :=
  ["HI", "ID", "CH", "askchaa", "askchar2", "AN", "AE", "AM", "RC", "RM",
   "RD", "CC", "MS", "CT", "MC", "RT", "SETCASE", "CASEA", "HP", "PE",
   "DE", "EE", "ZZ", "opKICK", "opBAN"]

/-- Result of invoking a dispatched handler: a normal return, or a
`KeyError` escaping the handler (which `data_received` treats exactly
like a missing dispatch key).  Partial effects made before the error
are retained. -/
inductive HandlerRes where
  | ok (cl : Client) (evs : List Event)
  | keyError (cl : Client) (evs : List Event)

/-- Oracles for `data_received`: the external `fanta_decrypt` and the
invocation of an in-table handler (the handlers themselves are
modelled individually below; at the dispatch layer they are abstract,
which is all claims about dispatch need). -/
structure DCtx where
  fanta_decrypt : String → String
  handler : String → List String → Client → HandlerRes

/-- Lines 113–117 of `data_received`: a frame whose first character is
a legacy marker has a leading `#` stripped, is split on the first `#`,
and has `fanta_decrypt` applied to its first field. -/
def legacyDecode (dctx : DCtx) (m : String) : String :=
  if pyHead m == '#' || pyHead m == '3' || pyHead m == '4' then
    let m1 := if pyHead m == '#' then pyDrop m 1 else m
    let spl := pySplit1 m1 '#'
    pyJoin "#" (dctx.fanta_decrypt (spl.headD "") :: spl.tail)
  else m

/-- The `for msg in self.get_messages()` loop body of `data_received`:
skip frames shorter than 2 characters, decode legacy obfuscation,
split into command name and arguments, dispatch.  A `KeyError` (table
miss or escaping a handler) is logged; for an unauthenticated
connection it escalates to a `ProtocolError`, modelled by the `Bool`
component (`true` = the loop aborted with `ProtocolError`). -/
def processMessages (dctx : DCtx) (cl : Client) :
    List String → Client × List Event × Bool
  | [] => (cl, [], false)
  | m :: ms =>
    if m.length < 2 then processMessages dctx cl ms
    else
      let md := legacyDecode dctx m
      let parts := pySplit md "#"
      let cmd := parts.headD ""
      let args := parts.tail
      let hres :=
        if cmd ∈ net_cmd_dispatcher_keys then dctx.handler cmd args cl
        else HandlerRes.keyError cl []
      match hres with
      | HandlerRes.ok cl' evs =>
        let evs := evs ++ (if cmd ≠ "CH" then [Event.touchLastPkt] else [])
        let r := processMessages dctx cl' ms
        (r.1, evs ++ r.2.1, r.2.2)
      | HandlerRes.keyError cl' evs =>
        let evs := evs ++ [Event.logUnknown md]
        if cl'.is_checked = false then (cl', evs, true)
        else
          let r := processMessages dctx cl' ms
          (r.1, evs ++ r.2.1, r.2.2)

/-- The `try ... except ProtocolError: self.client.disconnect()` block
around the message loop. -/
def handleFrames (dctx : DCtx) (cl : Client) (frames : List String) :
    Client × List Event :=
  let r := processMessages dctx cl frames
  if r.2.2 then (r.1, r.2.1 ++ [Event.disconnect]) else (r.1, r.2.1)

/-- The connection-level state of `data_received`. -/
structure Conn where
  buffer : String
  client : Client

/-- `AOProtocol.data_received` on a chunk of network bytes (already
UTF-8-decoded; the bytes path appends to the buffer): append, strip
nulls, disconnect when the buffer exceeds 8192 characters (without
stopping), then extract and process frames.  A `ProtocolError` from
`get_messages` or from an unknown command pre-authentication is caught
and turns into a disconnect.  (When the loop aborts mid-stream the
remaining buffer is immaterial — the connection is being dropped — so
the remainder is modelled as fully consumed.) -/
def dataReceivedCore (dctx : DCtx) (st : Conn) (buffer : String) :
    Conn × List Event :=
  let ev1 := if 8192 < buffer.length then [Event.disconnect] else []
  match get_messages buffer with
  | Except.error _ => ({ st with buffer := buffer }, ev1 ++ [Event.disconnect])
  | Except.ok p =>
    let r := handleFrames dctx st.client p.1
    ({ buffer := p.2, client := r.1 }, ev1 ++ r.2)

/-- `AOProtocol.data_received` proper: append and null-strip, then run
the core on the updated buffer. -/
def data_received (dctx : DCtx) (st : Conn) (dataStr : String) :
    Conn × List Event :=
  dataReceivedCore dctx st (stripNulls (st.buffer ++ dataStr))

/-! ## Handshake (`net_cmd_hi`) -/

/-- `AOProtocol.net_cmd_hi`: duplicate handshake disconnects; then the
single non-empty identity token is validated (`needs_auth=False`), the
device id is recorded, and the ban list consulted.  For a ban with an
expiry the notice carries reason, id and humanized expiry, then the
connection is dropped without authenticating; for a ban WITHOUT an
expiry the source sets `unban_date = 'N/A'` (a `str`) and then calls
`.humanize()` on it, which raises `AttributeError` before anything is
sent — modelled as `Except.error PyExc.attributeError`.  With no ban
the connection is authenticated and greeted. -/
def net_cmd_hi (ctx : Ctx) (cl : Client) (args : List PyVal) :
    Except PyExc (Client × List Event) :=
  if cl.is_checked then Except.ok (cl, [Event.disconnect])
  else
    let r := validate_net_cmd cl.char_id args [ArgType.STR] false
    if r.1 = false then Except.ok (cl, [])
    else
      let hdid := pyStrOf (r.2.getD 0 (PyVal.str ""))
      let cl := { cl with hdid := hdid }
      let ev0 := [Event.addHdid cl.ipid hdid]
      match ctx.find_ban cl.ipid hdid with
      | some ban =>
        match ban.unban_date with
        | some d =>
          let msg := ban.reason ++ "\r\n" ++ "ID: " ++ toString ban.ban_id ++
            "\r\n" ++ "Until: " ++ ctx.humanize d
          Except.ok (cl, ev0 ++ [Event.logConnect true,
            Event.sendCommand "BD" [PyVal.str msg], Event.disconnect])
        | none => Except.error PyExc.attributeError
      | none =>
        let cl := { cl with is_checked := true }
        Except.ok (cl, ev0 ++ [Event.logConnect false,
          Event.sendCommand "ID" [PyVal.int ctx.client_id,
            PyVal.str ctx.server_software, PyVal.str ctx.server_version],
          Event.sendCommand "PN" [PyVal.int ctx.player_count,
            PyVal.int ctx.playerlimit]])

/-! ## Evidence handlers (`net_cmd_pe`, `net_cmd_de`, `net_cmd_ee`) -/

/-- `AOProtocol.net_cmd_pe`: add a piece of evidence.  Note the
validator call leaves `needs_auth` at its default `True`, so a client
with no character selected (`char_id = -1`) fails validation. -/
def net_cmd_pe (ctx : Ctx) (cl : Client) (ar : Area) (args : List PyVal) :
    Client × Area × List Event :=
  if cl.is_checked = false then (cl, ar, [])
  else
    let r := validate_net_cmd cl.char_id args
      [ArgType.STR_OR_EMPTY, ArgType.STR_OR_EMPTY, ArgType.STR_OR_EMPTY] true
    if r.1 = false then (cl, ar, [])
    else if r.2.length < 3 then (cl, ar, [])
    else
      let ar' := ctx.add_evidence cl (pyStrOf (r.2.getD 0 (PyVal.str "")))
        (pyStrOf (r.2.getD 1 (PyVal.str ""))) (pyStrOf (r.2.getD 2 (PyVal.str "")))
        "all" ar
      (cl, ar', [Event.logRoom "evidence.add", Event.broadcastEvidence])

/-- `AOProtocol.net_cmd_de`: delete a piece of evidence (validator
default `needs_auth=True` again); the client-local index is resolved
through `self.client.evi_list` (a missing key raises `KeyError`). -/
def net_cmd_de (ctx : Ctx) (cl : Client) (ar : Area) (args : List PyVal) :
    Except PyExc (Client × Area × List Event) :=
  if cl.is_checked = false then Except.ok (cl, ar, [])
  else
    let r := validate_net_cmd cl.char_id args [ArgType.INT] true
    if r.1 = false then Except.ok (cl, ar, [])
    else
      let k := pyI (r.2.getD 0 (PyVal.int 0))
      match cl.eviList k with
      | none => Except.error PyExc.keyError
      | some g =>
        let ar' := ctx.del_evidence cl g ar
        Except.ok (cl, ar', [Event.logRoom "evidence.del", Event.broadcastEvidence])

/-- `AOProtocol.net_cmd_ee`: edit a piece of evidence (validator
default `needs_auth=True`; the `len(args) < 4` re-check is dead but
translated). -/
def net_cmd_ee (ctx : Ctx) (cl : Client) (ar : Area) (args : List PyVal) :
    Except PyExc (Client × Area × List Event) :=
  if cl.is_checked = false then Except.ok (cl, ar, [])
  else
    let r := validate_net_cmd cl.char_id args
      [ArgType.INT, ArgType.STR_OR_EMPTY, ArgType.STR_OR_EMPTY, ArgType.STR_OR_EMPTY] true
    if r.1 = false then Except.ok (cl, ar, [])
    else if r.2.length < 4 then Except.ok (cl, ar, [])
    else
      let k := pyI (r.2.getD 0 (PyVal.int 0))
      match cl.eviList k with
      | none => Except.error PyExc.keyError
      | some g =>
        let evi := (pyStrOf (r.2.getD 1 (PyVal.str "")),
          pyStrOf (r.2.getD 2 (PyVal.str "")),
          pyStrOf (r.2.getD 3 (PyVal.str "")), "all")
        let ar' := ctx.edit_evidence cl g evi ar
        Except.ok (cl, ar', [Event.logRoom "evidence.edit", Event.broadcastEvidence])

/-! ## OOC message handler (`net_cmd_ct`) -/

/-- Lines 745–750 of `net_cmd_ct`: when the submitted name differs
from both the real and the fake display name, adopt it as both only
when the name-validity policy accepts it; otherwise only as the fake
name. -/
def ctResolveName (ctx : Ctx) (cl : Client) (a0 : String) : Client :=
  if cl.name ≠ a0 ∧ cl.fake_name ≠ a0 then
    if ctx.is_valid_name a0 then { cl with name := a0, fake_name := a0 }
    else { cl with fake_name := a0 }
  else cl

/-- `AOProtocol.net_cmd_ct`: mute and arity checks, name resolution,
the four name checks (each aborting with its own notice), message
length cap, the space-before-slash guard, slash-command delegation to
the external registry, and finally plain-chat broadcast. -/
def net_cmd_ct (ctx : Ctx) (cl : Client) (ar : Area) (args : List PyVal) :
    Client × Area × List Event :=
  if cl.is_checked = false then (cl, ar, [])
  else if cl.is_ooc_muted then (cl, ar, [Event.sendOoc "You are muted by a moderator."])
  else
    let r := validate_net_cmd cl.char_id args [ArgType.STR, ArgType.STR] false
    if r.1 = false then (cl, ar, [])
    else
      let a0 := pyStrOf (r.2.getD 0 (PyVal.str ""))
      let a1 := pyStrOf (r.2.getD 1 (PyVal.str ""))
      let cl := ctResolveName ctx cl a0
      if cl.name = "" then
        (cl, ar, [Event.sendOoc "You must insert a name with at least one letter"])
      else if 30 < cl.name.length then
        (cl, ar, [Event.sendOoc "Your OOC name is too long! Limit it to 30 characters."])
      else if cl.name.data.any isCf then
        (cl, ar, [Event.sendOoc "You cannot use format characters in your name!"])
      else if pyStartsWith cl.name ctx.hostname || pyStartsWith cl.name "<dollar>G" ||
          pyStartsWith cl.name "<dollar>M" then
        (cl, ar, [Event.sendOoc "That name is reserved!"])
      else
        let max_char := match ctx.max_chars with | some n => n | none => 256
        if max_char < (a1.length : Int) then (cl, ar, [])
        else if pyStartsWith a1 " /" then
          (cl, ar, [Event.sendOoc
            "Your message was not sent for safety reasons: you left a space before that slash."])
        else if pyStartsWith a1 "/" then
          let spl := pySplit1 (pyDrop a1 1) ' '
          let cmd := pyToLower (spl.headD "")
          let arg := if spl.length = 2 then pyTake (spl.getD 1 "") 256 else ""
          if ctx.has_ooc_command cmd = false then
            (cl, ar, [Event.sendOoc "Invalid command."])
          else
            match ctx.run_ooc_command cmd arg with
            | OocRes.ok => (cl, ar, [Event.ranCommand cmd arg])
            | OocRes.domainError m =>
              (cl, ar, [Event.ranCommand cmd arg, Event.sendOoc m])
            | OocRes.otherError =>
              (cl, ar, [Event.ranCommand cmd arg,
                Event.sendOoc "An internal error occurred. Please check the server log.",
                Event.logException])
        else
          let m0 := dezalgo ctx.zalgo_tolerance a1
          let m1 := if cl.shaken then ctx.shake_message m0 else m0
          let m2 := if cl.disemvowel then ctx.disemvowel_message m1 else m1
          (cl, ar, [Event.areaSend "CT" [PyVal.str cl.name, PyVal.str m2],
            Event.ownerSend "CT"
              [PyVal.str ("[" ++ ar.abbreviation ++ "]" ++ cl.name), PyVal.str m2],
            Event.logRoom "ooc"])

/-! ## IC message handler (`net_cmd_ms`)

The handler is translated as a sequence of stages in the order of the
source: dialect resolution (`msResolve`), the policy checks up to the
blankpost guard (`msPolicy`), the embedded slash sub-language
(`msSubLang`), the field checks and downgrades (`msChecks`), and the
transform/spam-guard/evidence/pairing/broadcast tail (`msFinal`).
Each stage either stops (the handler `return`ed, with the events
emitted so far) or goes on with the updated client, area and local
variables. -/

/-- The local variables of `net_cmd_ms` after dialect resolution,
including the dialect defaults for fields absent from older dialects,
and the (mutated-in-place) argument list `args`. -/
structure MsVars where
  msg_type : String
  pre : String
  folder : String
  anim : String
  text : String
  pos : String
  sfx : String
  anim_type : Int
  cid : Int
  sfx_delay : Int
  button : PyVal
  evidence : Int
  flip : Int
  ding : Int
  color : Int
  showname : String
  charid_pair : Int
  offset_pair : String
  nonint_pre : Int
  sfx_looping : String
  screenshake : Int
  frames_shake : String
  frames_realization : String
  frames_sfx : String
  additive : Int
  effect : String
  pair_order : PyVal
  target_area : List Int
  args : List PyVal

/-- The pre-2.6 argument shape (15 slots). -/
def msTypes1 : List ArgType :=
  [ArgType.STR, ArgType.STR_OR_EMPTY, ArgType.STR, ArgType.STR,
   ArgType.STR_OR_EMPTY, ArgType.STR, ArgType.STR, ArgType.INT, ArgType.INT,
   ArgType.INT, ArgType.INT_OR_STR, ArgType.INT, ArgType.INT, ArgType.INT,
   ArgType.INT]

/-- The 2.6 argument shape (19 slots). -/
def msTypes2 : List ArgType :=
  msTypes1 ++ [ArgType.STR_OR_EMPTY, ArgType.INT, ArgType.STR, ArgType.INT]

/-- The 2.8 argument shape (26 slots; `charid_pair` is a compound
string split on `^`). -/
def msTypes3 : List ArgType :=
  msTypes1 ++ [ArgType.STR_OR_EMPTY, ArgType.STR, ArgType.STR, ArgType.INT,
   ArgType.STR, ArgType.INT, ArgType.STR, ArgType.STR, ArgType.STR,
   ArgType.INT, ArgType.STR]

/-- Dialect resolution of `net_cmd_ms`: try the three shapes in order,
committing to the first that validates; the argument list (mutated in
place by each attempt) is threaded through the attempts.  In the 2.8
shape, `int(pair_args[0])` on the compound pairing field can raise
`ValueError` (uncaught in the source).  `Except.ok none` is the
silent-drop `else: return`. -/
def msResolve (char_id : Int) (args : List PyVal) : Except PyExc (Option MsVars) :=
  let r1 := validate_net_cmd char_id args msTypes1 true
  if r1.1 then
    match r1.2 with
    | [mt, pre, folder, anim, text, pos, sfx, at_, cid, sd, btn, evi, flp, dng, col] =>
      Except.ok (some {
        msg_type := pyStrOf mt, pre := pyStrOf pre, folder := pyStrOf folder,
        anim := pyStrOf anim, text := pyStrOf text, pos := pyStrOf pos,
        sfx := pyStrOf sfx, anim_type := pyI at_, cid := pyI cid,
        sfx_delay := pyI sd, button := btn, evidence := pyI evi,
        flip := pyI flp, ding := pyI dng, color := pyI col,
        showname := "", charid_pair := -1, offset_pair := "", nonint_pre := 0,
        sfx_looping := "0", screenshake := 0, frames_shake := "",
        frames_realization := "", frames_sfx := "", additive := 0,
        effect := "", pair_order := PyVal.int 0, target_area := [],
        args := r1.2 })
    | _ => Except.ok none
  else
    let r2 := validate_net_cmd char_id r1.2 msTypes2 true
    if r2.1 then
      match r2.2 with
      | [mt, pre, folder, anim, text, pos, sfx, at_, cid, sd, btn, evi, flp,
         dng, col, sn, cp, op, np] =>
        Except.ok (some {
          msg_type := pyStrOf mt, pre := pyStrOf pre, folder := pyStrOf folder,
          anim := pyStrOf anim, text := pyStrOf text, pos := pyStrOf pos,
          sfx := pyStrOf sfx, anim_type := pyI at_, cid := pyI cid,
          sfx_delay := pyI sd, button := btn, evidence := pyI evi,
          flip := pyI flp, ding := pyI dng, color := pyI col,
          showname := pyStrOf sn, charid_pair := pyI cp,
          offset_pair := pyStrOf op, nonint_pre := pyI np,
          sfx_looping := "0", screenshake := 0, frames_shake := "",
          frames_realization := "", frames_sfx := "", additive := 0,
          effect := "", pair_order := PyVal.int 0, target_area := [],
          args := r2.2 })
      | _ => Except.ok none
    else
      let r3 := validate_net_cmd char_id r2.2 msTypes3 true
      if r3.1 then
        match r3.2 with
        | [mt, pre, folder, anim, text, pos, sfx, at_, cid, sd, btn, evi, flp,
           dng, col, sn, cp, op, np, sl, ss, fs, fr, fx, ad, ef] =>
          let parts := pySplit (pyStrOf cp) "^"
          match pyParseInt (parts.headD "") with
          | none => Except.error PyExc.valueError
          | some cpn =>
            let po := if 1 < parts.length then PyVal.str (parts.getD 1 "")
              else PyVal.int 0
            Except.ok (some {
              msg_type := pyStrOf mt, pre := pyStrOf pre, folder := pyStrOf folder,
              anim := pyStrOf anim, text := pyStrOf text, pos := pyStrOf pos,
              sfx := pyStrOf sfx, anim_type := pyI at_, cid := pyI cid,
              sfx_delay := pyI sd, button := btn, evidence := pyI evi,
              flip := pyI flp, ding := pyI dng, color := pyI col,
              showname := pyStrOf sn, charid_pair := cpn,
              offset_pair := pyStrOf op, nonint_pre := pyI np,
              sfx_looping := pyStrOf sl, screenshake := pyI ss,
              frames_shake := pyStrOf fs, frames_realization := pyStrOf fr,
              frames_sfx := pyStrOf fx, additive := pyI ad,
              effect := pyStrOf ef, pair_order := po, target_area := [],
              args := r3.2 })
        | _ => Except.ok none
      else Except.ok none

/-- Intermediate result of one stage of `net_cmd_ms`: the handler
returned (`stop`, with the notices emitted on the way out) or control
falls through to the next stage (`go`). -/
inductive Step where
  | stop (cl : Client) (ar : Area) (evs : List Event)
  | go (cl : Client) (ar : Area) (v : MsVars)

/-- Sequencing of stages: propagate exceptions and early returns. -/
def stepBindE (x : Except PyExc Step)
    (f : Client → Area → MsVars → Except PyExc Step) : Except PyExc Step :=
  match x with
  | Except.error e => Except.error e
  | Except.ok (Step.stop c a evs) => Except.ok (Step.stop c a evs)
  | Except.ok (Step.go c a v) => f c a v

/-- The characters stripped by the low-effort-spam test, the character
class of `re.sub(r'[{}\\`|(~~)]', '', text)` (braces, backslash,
backtick, pipe, parentheses, tilde). -/
def spamStripChars : List Char :=
  [Char.ofNat 0x7b, Char.ofNat 0x7d, '\\', Char.ofNat 0x60, '|', '(', '~', ')']

/-- Strip the markup characters and then every space, as in the
low-effort-spam test of `net_cmd_ms`. -/
def spamStripped (text : String) : String :=
  ⟨(text.data.filter (fun c => (spamStripChars.contains c) = false)).filter
    (fun c => c != ' ')⟩

/-- Lines 476–507 of `net_cmd_ms`: the additive flag, the showname
policy (note the unconditional `self.client.showname = showname` on
the non-rejected path), the iniswap and charcurse guards, and the two
blankposting guards. -/
def msPolicy (ctx : Ctx) (cl : Client) (ar : Area) (v : MsVars) :
    Except PyExc Step :=
  let v := { v with additive :=
    if v.additive = 1 ∧ ctx.client_can_additive cl then 1 else 0 }
  if 0 < v.showname.length ∧ ar.showname_changes_allowed = false then
    Except.ok (Step.stop cl ar
      [Event.sendOoc "Showname changes are forbidden in this area!"])
  else
    let cl := { cl with showname := v.showname }
    if ctx.is_iniswap cl v.pre v.anim v.folder v.sfx then
      Except.ok (Step.stop cl ar
        [Event.sendOoc "Iniswap/custom emotes are blocked in this area"])
    else if 0 < cl.charcurse.length ∧ v.folder ≠ cl.char_name then
      Except.ok (Step.stop cl ar
        [Event.sendOoc "You may not iniswap while you are charcursed!"])
    else if ar.blankposting_allowed = false ∧ pyStrip v.text = "" then
      Except.ok (Step.stop cl ar
        [Event.sendOoc "Blankposting is forbidden in this area!"])
    else if ar.blankposting_allowed = false ∧ (spamStripped v.text).length < 3 ∧
        pyStartsWith v.text "<" = false ∧ pyStartsWith v.text ">" = false then
      Except.ok (Step.stop cl ar
        [Event.sendOoc
          "While that is not a blankpost, it is still pretty spammy. Try forming sentences."])
    else Except.ok (Step.go cl ar v)

/-- Lines 508–543 of `net_cmd_ms`: the `/a`, `/s`, `/testify` and
`/examine` prefixes.  `get_area_by_id` on an unknown id raises
`AreaError` (uncaught in this handler). -/
def msSubPrefix (ctx : Ctx) (cl : Client) (ar : Area) (v : MsVars) :
    Except PyExc Step :=
  if pyStartsWith v.text "/a " then
    let part := pySplit v.text " "
    match pyParseInt (part.getD 1 "") with
    | none => Except.ok (Step.stop cl ar
        [Event.sendOoc "That does not look like a valid area ID!"])
    | some aid =>
      match ctx.get_area_by_id aid with
      | none => Except.error PyExc.areaError
      | some ai =>
        let tgt := if ai.owned then [aid] else []
        if tgt.isEmpty then
          Except.ok (Step.stop cl ar
            [Event.sendOoc ("You don\x27t own " ++ ai.name ++ "!")])
        else Except.ok (Step.go cl ar
          { v with text := pyJoin " " (part.drop 2), target_area := tgt })
  else if pyStartsWith v.text "/s " then
    let part := pySplit v.text " "
    let tgt := (ctx.areas.filter (fun a => a.owned)).map (fun a => a.id)
    if tgt.isEmpty then
      Except.ok (Step.stop cl ar [Event.sendOoc "You don\x27t any areas!"])
    else Except.ok (Step.go cl ar
      { v with text := pyJoin " " (part.drop 1), target_area := tgt })
  else if pyStartsWith v.text "/testify " then
    let part := pySplit v.text " "
    let t1 := pyJoin " " (part.drop 1)
    let r := ctx.start_testimony cl t1 ar
    if r.1 = false then Except.ok (Step.stop cl r.2 [])
    else Except.ok (Step.go cl r.2
      { v with text := "~~-- " ++ t1 ++ " --", color := 3 })
  else if pyStartsWith v.text "/examine" then
    let r := ctx.start_examination cl ar
    if r.1 = false then Except.ok (Step.stop cl r.2 [])
    else Except.ok (Step.go cl r.2
      { v with text := "~~-- " ++ r.2.testimony_title ++ " --", color := 3 })
  else Except.ok (Step.go cl ar v)

/-- Lines 545–583 of `net_cmd_ms`: the `/end`, `/amend`, `/add` and
`/remove` sub-commands available while the room is testifying or
examining.  In `/amend` the text, `args[4]` and the color are
reassigned before the index parse (as in the source), amending during
testimony returns without re-broadcasting, and amending during
examination repositions the cursor. -/
def msTestimonyCmds (ctx : Ctx) (cl : Client) (ar : Area) (v : MsVars) :
    Except PyExc Step :=
  if pyStartsWith v.text "/end" then
    let r := ctx.end_testimony cl ar
    if r.1 = false then Except.ok (Step.stop cl r.2 [])
    else Except.ok (Step.go cl r.2 { v with text := "" })
  else if pyStartsWith v.text "/amend " then
    let part := pySplit v.text " "
    let t1 := pyJoin " " (part.drop 2)
    let args' := v.args.set 4 (PyVal.str t1)
    let v := { v with text := t1, args := args', color := 1 }
    match pyParseInt (part.getD 1 "") with
    | none => Except.ok (Step.stop cl ar
        [Event.sendOoc "That does not look like a valid statement number!"])
    | some index =>
      let r := ctx.amend_testimony cl index args' ar
      if r.1 = false then Except.ok (Step.stop cl r.2 [])
      else if r.2.is_testifying then Except.ok (Step.stop cl r.2 [])
      else if r.2.is_examining then
        Except.ok (Step.go cl { r.2 with examine_index := index } v)
      else Except.ok (Step.go cl r.2 v)
  else if pyStartsWith v.text "/add " ∧ ar.is_examining then
    let part := pySplit v.text " "
    let t1 := pyJoin " " (part.drop 1)
    let args' := v.args.set 4 (PyVal.str t1)
    let r := ctx.add_statement args' ar
    let ar' := { r.2 with
      examine_index := (r.2.testimony_statements.length : Int) - 1 }
    Except.ok (Step.go cl ar' { v with text := t1, args := args', color := 1 })
  else if pyStartsWith v.text "/remove " then
    let part := pySplit v.text " "
    match pyParseInt (part.getD 1 "") with
    | none => Except.ok (Step.stop cl ar
        [Event.sendOoc "That does not look like a valid statement number!"])
    | some index =>
      let r := ctx.remove_statement cl index ar
      if r.1 = false then Except.ok (Step.stop cl r.2 [])
      else Except.ok (Step.go cl r.2 { v with text := "" })
  else Except.ok (Step.go cl ar v)

/-- The testimony block of `net_cmd_ms` (lines 544–589): the
sub-commands above, then — re-reading the possibly-updated area — the
navigation branch for `>`, `<`, `=` prefixes, which always returns
without broadcasting.  The `int(text[1:])` parse failure is caught by
the source's `except ValueError` and navigation is retried without a
target (the oracle itself is assumed not to raise `ValueError`). -/
def msTestimony (ctx : Ctx) (cl : Client) (ar : Area) (v : MsVars) :
    Except PyExc Step :=
  if ar.is_testifying ∨ ar.is_examining then
    stepBindE (msTestimonyCmds ctx cl ar v) (fun c a v' =>
      if a.is_examining ∧ v'.text ≠ "" ∧
          (pyHead v'.text == '>' || pyHead v'.text == '<' || pyHead v'.text == '=') then
        let a' := match pyParseInt (pyDrop v'.text 1) with
          | some n => ctx.navigate_testimony c (pyTake v'.text 1) (some n) a
          | none => ctx.navigate_testimony c (pyTake v'.text 1) none a
        Except.ok (Step.stop c a' [])
      else Except.ok (Step.go c a v'))
  else Except.ok (Step.go cl ar v)

/-- The whole slash sub-language stage. -/
def msSubLang (ctx : Ctx) (cl : Client) (ar : Area) (v : MsVars) :
    Except PyExc Step :=
  stepBindE (msSubPrefix ctx cl ar v) (msTestimony ctx)

/-- Line 600 of `net_cmd_ms`: a button value containing the character
`4` but not the compound token `<and>` must be purely numeric.  On a
(unreachable, see the `INT_OR_STR` discussion) int value the
`.isdigit()` call would raise `AttributeError`. -/
def buttonOk (b : PyVal) : Except PyExc Bool :=
  if pyContains (pyStrOf b) '4' ∧ (pySplit (pyStrOf b) "<and>").length = 1 then
    match b with
    | PyVal.str s => Except.ok (pyIsDigit s)
    | PyVal.int _ => Except.error PyExc.attributeError
  else Except.ok true

/-- Lines 590–643 of `net_cmd_ms`: message-type and animation-type
enumerations, character-id and sound-delay checks, the button digit
check, evidence/ding/color ranges, the showname length cap, the
non-interrupting-preemption downgrades, the shouts-forbidden
downgrade, and the text length cap. -/
def msChecks (ctx : Ctx) (cl : Client) (ar : Area) (v : MsVars) :
    Except PyExc Step :=
  if (["chat", "0", "1", "2", "3", "4", "5"].contains v.msg_type) = false then
    Except.ok (Step.stop cl ar [])
  else
    let anim_type := if v.anim_type = 4 then 6 else v.anim_type
    if (([0, 1, 2, 5, 6] : List Int).contains anim_type) = false then
      Except.ok (Step.stop cl ar [])
    else if v.cid ≠ cl.char_id then Except.ok (Step.stop cl ar [])
    else if v.sfx_delay < 0 then Except.ok (Step.stop cl ar [])
    else match buttonOk v.button with
    | Except.error e => Except.error e
    | Except.ok false => Except.ok (Step.stop cl ar [])
    | Except.ok true =>
      if v.evidence < 0 then Except.ok (Step.stop cl ar [])
      else if (([0, 1] : List Int).contains v.ding) = false then
        Except.ok (Step.stop cl ar [])
      else if (([0, 1, 2, 3, 4, 5, 6, 7, 8] : List Int).contains v.color) = false then
        Except.ok (Step.stop cl ar [])
      else if 15 < v.showname.length then
        Except.ok (Step.stop cl ar [Event.sendOoc "Your IC showname is way too long!"])
      else
        let anim_type :=
          if v.nonint_pre = 1 ∧ pyInInts v.button [1, 2, 3, 4, 23] then
            (if anim_type = 1 ∨ anim_type = 2 then 0
             else if anim_type = 6 then 5 else anim_type)
          else anim_type
        let p1 : Int × Int :=
          if ar.non_int_pres_only then
            (if anim_type = 1 ∨ anim_type = 2 then ((0 : Int), (1 : Int))
             else if anim_type = 6 then (5, 1) else (anim_type, v.nonint_pre))
          else (anim_type, v.nonint_pre)
        let p2 : Int × PyVal × Int :=
          if ar.shouts_allowed = false then
            ((if p1.1 = 2 then 1 else if p1.1 = 6 then 5 else p1.1),
             PyVal.int 0, (0 : Int))
          else (p1.1, v.button, v.ding)
        let max_char := match ctx.max_chars with | some n => n | none => 256
        if max_char < (v.text.length : Int) then Except.ok (Step.stop cl ar [])
        else Except.ok (Step.go cl ar
          { v with anim_type := p2.1
                   nonint_pre := p1.2
                   button := p2.2.1
                   ding := p2.2.2 })

/-- The text transform of `net_cmd_ms` (lines 645–650): dezalgo, hard
truncation to 256 characters, then the shake and disemvowel effects. -/
def msgTransform (ctx : Ctx) (cl : Client) (text : String) : String :=
  let m0 := pyTake (dezalgo ctx.zalgo_tolerance text) 256
  let m1 := if cl.shaken then ctx.shake_message m0 else m0
  if cl.disemvowel then ctx.disemvowel_message m1 else m1

/-- The exact-repeat spam guard condition (line 653): non-blank
transformed text, a recorded last IC message, the same character id at
field 8, and equal field-4 text after trimming trailing whitespace.
Indexing a too-short record raises `IndexError` and `.rstrip()` on a
non-string raises `AttributeError` (both unreachable for records
produced by this handler). -/
def msSpamHit (cid : Int) (msg : String) (last : Option (List PyVal)) :
    Except PyExc Bool :=
  if pyStrip msg = "" then Except.ok false
  else match last with
  | none => Except.ok false
  | some l =>
    match l.get? 8 with
    | none => Except.error PyExc.indexError
    | some l8 =>
      if pyEqB (PyVal.int cid) l8 = false then Except.ok false
      else match l.get? 4 with
        | none => Except.error PyExc.indexError
        | some (PyVal.int _) => Except.error PyExc.attributeError
        | some (PyVal.str s4) => Except.ok (pyRstrip msg == pyRstrip s4)

/-- Output of the pairing scan (lines 676–696). -/
structure PairRes where
  confirmed : Bool
  charid_out : PyVal
  other_offset : String
  other_emote : String
  other_flip : Int
  other_folder : String

/-- The per-target condition of the pairing scan: the target's
character id equals the sender's freshly-stored pair request, the
target requests the sender's character id, the target is a distinct
client, and both occupy the same position. -/
def pairMatch (cl : Client) (t : Client) : Bool :=
  t.char_id == cl.charid_pair && t.charid_pair == cl.char_id &&
  t.id != cl.id && t.pos == cl.pos

/-- Lines 676–696 of `net_cmd_ms`: when a pair id was requested, scan
the room for the first reciprocal same-position distinct client; on
success attach the partner's offset/sprite/flip/folder and append the
order tag (note `pair_order != ""` is `True` for the int default `0`,
so confirmed pairs from the 15- and 19-slot dialects get `^0`
appended); otherwise force the outgoing pair id to `-1`. -/
def pairScan (cl : Client) (clients : List Client) (charid_pair : Int)
    (pair_order : PyVal) : PairRes :=
  if -1 < charid_pair then
    match clients.find? (pairMatch cl) with
    | some t =>
      { confirmed := true
        charid_out :=
          if pyNeB pair_order (PyVal.str "") then
            PyVal.str (toString charid_pair ++ "^" ++ pyStrOf pair_order)
          else PyVal.int charid_pair
        other_offset := t.offset_pair, other_emote := t.last_sprite,
        other_flip := t.flip, other_folder := t.claimed_folder }
    | none =>
      { confirmed := false, charid_out := PyVal.int (-1), other_offset := "0",
        other_emote := "", other_flip := 0, other_folder := "" }
  else
    { confirmed := false, charid_out := PyVal.int (-1), other_offset := "0",
      other_emote := "", other_flip := 0, other_folder := "" }

/-- Lines 645–729 of `net_cmd_ms`: text transform, the exact-repeat
spam guard, the evidence resolution and reveal side effect, the
pairing bookkeeping and scan, the away-from-keyboard reset, and the
broadcast tail (room, remote rooms, owners, pacing delay, audit log,
recording transcript, testimony statement). -/
def msFinal (ctx : Ctx) (cl : Client) (ar : Area) (v : MsVars) :
    Except PyExc (Client × Area × List Event) :=
  let msg := msgTransform ctx cl v.text
  match msSpamHit v.cid msg ar.last_ic_message with
  | Except.error e => Except.error e
  | Except.ok true =>
    Except.ok (cl, ar,
      [Event.sendOoc "Your message is a repeat of the last one. Don\x27t spam!"])
  | Except.ok false =>
    let eviKey := if (cl.eviList v.evidence).isNone then 0 else v.evidence
    let flipRes : Except PyExc (Area × List Event) :=
      if (cl.eviList v.evidence).isSome ∧ v.evidence ≠ 0 then
        let g := (cl.eviList v.evidence).getD 0
        match pyIdx ar.evidences.length (g - 1) with
        | none => Except.error PyExc.indexError
        | some j =>
          if ar.evidences.getD j "" ≠ "all" then
            Except.ok ({ ar with evidences := ar.evidences.set j "all" },
              [Event.broadcastEvidence])
          else Except.ok (ar, [])
      else Except.ok (ar, [])
    match flipRes with
    | Except.error e => Except.error e
    | Except.ok (ar, eviEvs) =>
      let cl := { cl with charid_pair := v.charid_pair
                          offset_pair := v.offset_pair }
      let cl := if (([5, 6] : List Int).contains v.anim_type) = false then
        { cl with last_sprite := v.anim } else cl
      let cl := { cl with flip := v.flip, claimed_folder := v.folder }
      let pr := pairScan cl ar.clients v.charid_pair v.pair_order
      let afkEvs := if ar.afkers.contains cl.id then [Event.toggleAfk] else []
      match cl.eviList eviKey with
      | none => Except.error PyExc.keyError
      | some gEvi =>
        let send_args : List PyVal :=
          [PyVal.str v.msg_type, PyVal.str v.pre, PyVal.str v.folder,
           PyVal.str v.anim, PyVal.str msg, PyVal.str v.pos, PyVal.str v.sfx,
           PyVal.int v.anim_type, PyVal.int v.cid, PyVal.int v.sfx_delay,
           v.button, PyVal.int gEvi, PyVal.int v.flip, PyVal.int v.ding,
           PyVal.int v.color, PyVal.str v.showname, pr.charid_out,
           PyVal.str pr.other_folder, PyVal.str pr.other_emote,
           PyVal.str v.offset_pair, PyVal.str pr.other_offset,
           PyVal.int pr.other_flip, PyVal.int v.nonint_pre,
           PyVal.str v.sfx_looping, PyVal.int v.screenshake,
           PyVal.str v.frames_shake, PyVal.str v.frames_realization,
           PyVal.str v.frames_sfx, PyVal.int v.additive, PyVal.str v.effect]
        let ar := { ar with last_ic_message := some send_args }
        let ownerArgs := send_args.take 4 ++
          [PyVal.str ("[" ++ ar.abbreviation ++ "]" ++ msg)] ++ send_args.drop 5
        let evs1 := afkEvs ++
          [Event.areaSend "MS" send_args,
           Event.remoteSend v.target_area "MS" send_args,
           Event.ownerSend "MS" ownerArgs,
           Event.setNextMsgDelay msg.length,
           Event.logIC v.showname msg]
        let ar := if ar.is_recording then
          { ar with recorded_messages := ar.recorded_messages ++ [v.args] }
          else ar
        if ar.is_testifying then
          let r := ctx.add_statement send_args ar
          if r.1 = false then
            Except.ok (cl, r.2, eviEvs ++ evs1 ++
              [Event.sendOoc
                "That statement was not recorded because you reached the statement limit."])
          else Except.ok (cl, r.2, eviEvs ++ evs1)
        else Except.ok (cl, ar, eviEvs ++ evs1)

/-- `AOProtocol.net_cmd_ms`: the authentication, mute and
room-permission preconditions, then dialect resolution, then the four
stages in source order. -/
def net_cmd_ms (ctx : Ctx) (cl : Client) (ar : Area) (args : List PyVal) :
    Except PyExc (Client × Area × List Event) :=
  if cl.is_checked = false then Except.ok (cl, ar, [])
  else if cl.is_muted then
    Except.ok (cl, ar, [Event.sendOoc "You are muted by a moderator."])
  else if ctx.can_send_message cl = false then Except.ok (cl, ar, [])
  else match msResolve cl.char_id args with
  | Except.error e => Except.error e
  | Except.ok none => Except.ok (cl, ar, [])
  | Except.ok (some v) =>
    match stepBindE (stepBindE (msPolicy ctx cl ar v) (msSubLang ctx))
        (msChecks ctx) with
    | Except.error e => Except.error e
    | Except.ok (Step.stop c a evs) => Except.ok (c, a, evs)
    | Except.ok (Step.go c a v') => msFinal ctx c a v'

/-! ## Concrete fixtures for witnesses and counterexamples -/

/-- A plain authenticated client with a character selected. -/
def defaultClient : Client :=
  { id := 0, char_id := 0, is_checked := true, is_muted := false,
    is_ooc_muted := false, showname := "", charcurse := [], char_name := "F",
    charid_pair := -1, offset_pair := "", last_sprite := "", flip := 0,
    claimed_folder := "", pos := "wit", shaken := false, disemvowel := false,
    eviList := fun k => if k = 0 then some 0 else none, name := "",
    fake_name := "", ipid := "ip", hdid := "" }

/-- A permissive room with no testimony in progress. -/
def defaultArea : Area :=
  { showname_changes_allowed := true, blankposting_allowed := true,
    non_int_pres_only := false, shouts_allowed := true, clients := [],
    afkers := [], last_ic_message := none, is_testifying := false,
    is_examining := false, is_recording := false, examine_index := 0,
    testimony_title := "", testimony_statements := [], recorded_messages := [],
    evidences := ["all"], abbreviation := "A1" }

/-- Benign collaborator oracles. -/
def defaultCtx : Ctx :=
  { zalgo_tolerance := 3, max_chars := none, hostname := "<dollar>H",
    can_send_message := fun _ => true, client_can_additive := fun _ => false,
    is_iniswap := fun _ _ _ _ _ => false, get_area_by_id := fun _ => none,
    areas := [], start_testimony := fun _ _ a => (false, a),
    start_examination := fun _ a => (false, a),
    end_testimony := fun _ a => (false, a),
    amend_testimony := fun _ _ _ a => (false, a),
    remove_statement := fun _ _ a => (false, a),
    navigate_testimony := fun _ _ _ a => a,
    add_statement := fun _ a => (true, a),
    shake_message := fun s => s, disemvowel_message := fun s => s,
    is_valid_name := fun _ => true, has_ooc_command := fun _ => false,
    run_ooc_command := fun _ _ => OocRes.ok, find_ban := fun _ _ => none,
    humanize := fun _ => "", add_evidence := fun _ _ _ _ _ a => a,
    del_evidence := fun _ _ a => a, edit_evidence := fun _ _ _ a => a,
    server_software := "tsuserver3", server_version := "v",
    player_count := 0, playerlimit := 100, client_id := 0 }

/-- A dispatch context with identity decryption and a trivial handler. -/
def defaultDCtx : DCtx :=
  { fanta_decrypt := fun s => s, handler := fun _ _ cl => HandlerRes.ok cl [] }

/-- Events of a handler run (empty when an exception escaped). -/
def runEvents (r : Except PyExc (Client × Area × List Event)) : List Event :=
  match r with
  | Except.ok p => p.2.2
  | Except.error _ => []

/-- Client of a successful handler run (fallback for errors). -/
def runClient (r : Except PyExc (Client × Area × List Event)) : Client :=
  match r with
  | Except.ok p => p.1
  | Except.error _ => defaultClient

/-- Area of a successful handler run (fallback for errors). -/
def runArea (r : Except PyExc (Client × Area × List Event)) : Area :=
  match r with
  | Except.ok p => p.2.1
  | Except.error _ => defaultArea

/-- An IC broadcast to the sender's room. -/
def isMsBroadcast : Event → Bool
  | Event.areaSend c _ => c == "MS"
  | _ => false

/-! ## Theorems -/

/-- Filtering for a predicate that holds of the replicated element is
the identity (used to evaluate `stripNulls` on large buffers). -/
theorem filter_replicate_of_pos {α : Type} (p : α → Bool) (a : α) (hp : p a = true) :
    ∀ n, (List.replicate n a).filter p = List.replicate n a := by
  intro n
  induction n with
  | zero => rfl
  | succ k ih => simp [List.replicate_succ, List.filter_cons, hp, ih]

/-- The events of `dataReceivedCore` are the overflow disconnect
followed by the framing-violation disconnect or the per-frame
events. -/
theorem dataReceivedCore_events (dctx : DCtx) (st : Conn) (buffer : String) :
    (dataReceivedCore dctx st buffer).2 =
      (if 8192 < buffer.length then [Event.disconnect] else []) ++
      (match get_messages buffer with
       | Except.error _ => [Event.disconnect]
       | Except.ok p => (handleFrames dctx st.client p.1).2) := by
  unfold dataReceivedCore
  cases get_messages buffer <;> rfl

/-- Claim C8: whenever the input buffer, after appending the received
data and stripping nulls, is strictly longer than 8192 characters, the
connection is disconnected, whether or not any frame terminator is
present. -/
theorem c8_overflow_disconnect (dctx : DCtx) (st : Conn) (dataStr : String)
    (h : 8192 < (stripNulls (st.buffer ++ dataStr)).length) :
    Event.disconnect ∈ (data_received dctx st dataStr).2 := by
  unfold data_received
  rw [dataReceivedCore_events, if_pos h]
  exact List.mem_append_left _ (by simp)

/-- Witness for C8: an 8193-character chunk with no terminator anywhere
still forces the disconnect. -/
theorem c8_overflow_disconnect_witness :
    Event.disconnect ∈
      (data_received defaultDCtx { buffer := "", client := defaultClient }
        ⟨List.replicate 8193 'a'⟩).2 := by
  apply c8_overflow_disconnect
  show 8192 < (stripNulls ("" ++ (⟨List.replicate 8193 'a'⟩ : String))).length
  unfold stripNulls
  rw [show (("" ++ (⟨List.replicate 8193 'a'⟩ : String)).data) =
      List.replicate 8193 'a' from rfl]
  rw [filter_replicate_of_pos _ _ (by decide)]
  show 8192 < (List.replicate 8193 'a').length
  rw [List.length_replicate]
  omega

/-- Claim C7: frame extraction raises the framing violation exactly
when the buffer has reached 24 characters with no `#` delimiter in its
first 24 characters; and whenever it does, `data_received` disconnects
the connection regardless of the rest of the buffer. -/
theorem c7_header_violation :
    (∀ buffer : String,
      get_messages buffer = Except.error PyExc.protocolError ↔
        (24 ≤ buffer.length ∧ pyContains (pyTake buffer 24) '#' = false))
    ∧ (∀ (dctx : DCtx) (st : Conn) (dataStr : String),
        24 ≤ (stripNulls (st.buffer ++ dataStr)).length →
        pyContains (pyTake (stripNulls (st.buffer ++ dataStr)) 24) '#' = false →
        Event.disconnect ∈ (data_received dctx st dataStr).2) := by
  constructor
  · intro buffer
    unfold get_messages
    by_cases h : 24 ≤ buffer.length ∧ pyContains (pyTake buffer 24) '#' = false
    · simp [h]
    · simp [h]
  · intro dctx st dataStr h1 h2
    unfold data_received
    rw [dataReceivedCore_events]
    have hg : get_messages (stripNulls (st.buffer ++ dataStr)) =
        Except.error PyExc.protocolError := by
      unfold get_messages
      rw [if_pos ⟨h1, h2⟩]
    rw [hg]
    exact List.mem_append_right _ (by simp)

/-- Witness for C7: a 24-character delimiter-free buffer is rejected,
and feeding it to a fresh connection disconnects it. -/
theorem c7_header_violation_witness :
    get_messages "aaaaaaaaaaaaaaaaaaaaaaaa" = Except.error PyExc.protocolError
    ∧ Event.disconnect ∈
        (data_received defaultDCtx { buffer := "", client := defaultClient }
          "aaaaaaaaaaaaaaaaaaaaaaaa").2 := by
  constructor
  · exact (c7_header_violation.1 "aaaaaaaaaaaaaaaaaaaaaaaa").mpr (by decide)
  · exact c7_header_violation.2 defaultDCtx
      { buffer := "", client := defaultClient } "aaaaaaaaaaaaaaaaaaaaaaaa"
      (by decide) (by decide)

/-- Counterexample for C4: the frame `Z` (a single character) carries
the command name `Z`, which is absent from the dispatch table, yet an
unauthenticated connection that sends it is NOT disconnected — frames
shorter than 2 characters are skipped before dispatch, so nothing at
all happens, while the claim requires a disconnect with no reply. -/
theorem c4_counterexample :
    handleFrames defaultDCtx { defaultClient with is_checked := false } ["Z"] =
      ({ defaultClient with is_checked := false }, []) := rfl

/-- Claim C4 (amended to frames of length at least 2, the only ones
that reach dispatch): a frame whose decoded command name is absent
from the static dispatch table is logged, and the connection is then
disconnected with no reply when unauthenticated, or left untouched
when authenticated. -/
theorem c4_amended (dctx : DCtx) (cl : Client) (m : String)
    (hlen : 2 ≤ m.length)
    (hcmd : (pySplit (legacyDecode dctx m) "#").headD "" ∉ net_cmd_dispatcher_keys) :
    (cl.is_checked = false →
      handleFrames dctx cl [m] =
        (cl, [Event.logUnknown (legacyDecode dctx m), Event.disconnect]))
    ∧ (cl.is_checked = true →
      handleFrames dctx cl [m] = (cl, [Event.logUnknown (legacyDecode dctx m)])) := by
  have h2 : ¬(m.length < 2) := by omega
  have hcmd2 : ((pySplit (legacyDecode dctx m) "#").head?.getD "") ∉
      net_cmd_dispatcher_keys := by simpa using hcmd
  constructor <;> intro hchk <;>
    simp [handleFrames, processMessages, h2, hcmd2, hchk]

/-- Witness for C4: the unknown two-character command `ZQ` drops an
unauthenticated connection and is merely logged for an authenticated
one. -/
theorem c4_amended_witness :
    (handleFrames defaultDCtx { defaultClient with is_checked := false } ["ZQ#x"] =
      ({ defaultClient with is_checked := false },
       [Event.logUnknown "ZQ#x", Event.disconnect]))
    ∧ (handleFrames defaultDCtx defaultClient ["ZQ#x"] =
      (defaultClient, [Event.logUnknown "ZQ#x"])) := by
  constructor
  · exact (c4_amended defaultDCtx { defaultClient with is_checked := false }
      "ZQ#x" (by decide) (by decide)).1 rfl
  · exact (c4_amended defaultDCtx defaultClient "ZQ#x"
      (by decide) (by decide)).2 rfl

/-- Ban-list oracle for C3: every identity is banned, with an expiry
instant that humanizes to `in 2 days`. -/
def c3ctxExpiry : Ctx :=
  { defaultCtx with
    find_ban := fun _ _ => some { reason := "r", ban_id := 7, unban_date := some 100 }
    humanize := fun _ => "in 2 days" }

/-- Ban-list oracle for C3: every identity is banned with no expiry. -/
def c3ctxIndefinite : Ctx :=
  { defaultCtx with
    find_ban := fun _ _ => some { reason := "r", ban_id := 7, unban_date := none } }

/-- Claim C3: for a ban WITH an expiry the handler sends exactly one
formatted `BD` notice carrying the reason, the ban id and the
humanized expiry, logs the failed connect, disconnects, and never sets
the authenticated flag.  For a ban WITHOUT an expiry, however, the
code assigns the plain string `N/A` to `unban_date` and then calls
`.humanize()` on it, raising `AttributeError` before any notice or
disconnect is emitted — the claim describes the intended behaviour,
the code crashes on this input. -/
theorem c3_ban_paths :
    (net_cmd_hi c3ctxExpiry { defaultClient with is_checked := false }
        [PyVal.str "hd"] =
      Except.ok ({ defaultClient with is_checked := false, hdid := "hd" },
        [Event.addHdid "ip" "hd", Event.logConnect true,
         Event.sendCommand "BD" [PyVal.str "r\r\nID: 7\r\nUntil: in 2 days"],
         Event.disconnect]))
    ∧ (net_cmd_hi c3ctxIndefinite { defaultClient with is_checked := false }
        [PyVal.str "hd"] =
      Except.error PyExc.attributeError) := ⟨rfl, rfl⟩

/-- Counterexample for C2: an authenticated client with NO character
selected (`char_id = -1`) sends a three-field evidence-add command;
the claim says the evidence mutation runs and the evidence list is
rebroadcast, but the validator (whose `needs_auth` parameter is left
at its default `True` by `net_cmd_pe`) rejects the command: nothing
happens and no event is emitted. -/
theorem c2_counterexample :
    net_cmd_pe defaultCtx { defaultClient with char_id := -1 } defaultArea
      [PyVal.str "a", PyVal.str "b", PyVal.str "c"] =
      ({ defaultClient with char_id := -1 }, defaultArea, []) := rfl

/-- Claim C2 (amended: the evidence handlers require a selected
character in addition to connection authentication): for an
authenticated client WITH a character selected, an evidence
add/edit/delete whose arguments exactly satisfy the documented field
count (and, for edit/delete, whose index resolves in the client's
personal evidence mapping) performs the mutation and concludes with a
full evidence-list rebroadcast. -/
theorem c2_amended (ctx : Ctx) (cl : Client) (ar : Area)
    (hchk : cl.is_checked = true) (hchar : cl.char_id ≠ -1) :
    (∀ s0 s1 s2 : String,
      net_cmd_pe ctx cl ar [PyVal.str s0, PyVal.str s1, PyVal.str s2] =
        (cl, ctx.add_evidence cl s0 s1 s2 "all" ar,
         [Event.logRoom "evidence.add", Event.broadcastEvidence]))
    ∧ (∀ (a : PyVal) (k g : Int), pyToInt a = some k → (pyStrOf a).length ≠ 0 →
        cl.eviList k = some g →
        net_cmd_de ctx cl ar [a] =
          Except.ok (cl, ctx.del_evidence cl g ar,
            [Event.logRoom "evidence.del", Event.broadcastEvidence]))
    ∧ (∀ (a : PyVal) (k g : Int) (s1 s2 s3 : String),
        pyToInt a = some k → (pyStrOf a).length ≠ 0 → cl.eviList k = some g →
        net_cmd_ee ctx cl ar [a, PyVal.str s1, PyVal.str s2, PyVal.str s3] =
          Except.ok (cl, ctx.edit_evidence cl g (s1, s2, s3, "all") ar,
            [Event.logRoom "evidence.edit", Event.broadcastEvidence])) := by
  refine ⟨?_, ?_, ?_⟩
  · intro s0 s1 s2
    simp [net_cmd_pe, validate_net_cmd, validateLoop, hchk, hchar, pyStrOf, pyI]
  · intro a k g hk hne hg
    simp [net_cmd_de, validate_net_cmd, validateLoop, hchk, hchar, hk, hne, hg, pyI]
  · intro a k g s1 s2 s3 hk hne hg
    simp [net_cmd_ee, validate_net_cmd, validateLoop, hchk, hchar, hk, hne, hg, pyI]
    rfl

/-- Witness for C2: concrete add, delete and edit runs with a selected
character all mutate and rebroadcast. -/
theorem c2_amended_witness :
    (net_cmd_pe defaultCtx defaultClient defaultArea
        [PyVal.str "n", PyVal.str "d", PyVal.str "i"] =
      (defaultClient, defaultCtx.add_evidence defaultClient "n" "d" "i" "all" defaultArea,
       [Event.logRoom "evidence.add", Event.broadcastEvidence]))
    ∧ (net_cmd_de defaultCtx defaultClient defaultArea [PyVal.str "0"] =
      Except.ok (defaultClient, defaultCtx.del_evidence defaultClient 0 defaultArea,
        [Event.logRoom "evidence.del", Event.broadcastEvidence]))
    ∧ (net_cmd_ee defaultCtx defaultClient defaultArea
        [PyVal.str "0", PyVal.str "n", PyVal.str "d", PyVal.str "i"] =
      Except.ok (defaultClient, defaultCtx.edit_evidence defaultClient 0
        ("n", "d", "i", "all") defaultArea,
        [Event.logRoom "evidence.edit", Event.broadcastEvidence])) := by
  refine ⟨?_, ?_, ?_⟩
  · exact (c2_amended defaultCtx defaultClient defaultArea rfl (by decide)).1 "n" "d" "i"
  · exact (c2_amended defaultCtx defaultClient defaultArea rfl (by decide)).2.1
      (PyVal.str "0") 0 0 (by decide) (by decide) (by simp [defaultClient])
  · exact (c2_amended defaultCtx defaultClient defaultArea rfl (by decide)).2.2
      (PyVal.str "0") 0 0 "n" "d" "i"
      (by decide) (by decide) (by simp [defaultClient])

/-- A 30-character OOC name. -/
def c9name : String := "AAAAAAAAAAAAAAAAAAAAAAAAAAAAAA"

/-- Counterexample for C9: the claim requires the effective OOC name
to be UNDER 30 characters, so a 30-character name should be rejected;
the code only rejects names of length strictly greater than 30
(`len(self.client.name) > 30`), and this 30-character name sails
through every name check and is broadcast as plain chat. -/
theorem c9_counterexample :
    net_cmd_ct defaultCtx
      { defaultClient with name := c9name, fake_name := c9name } defaultArea
      [PyVal.str c9name, PyVal.str "hi"] =
      ({ defaultClient with name := c9name, fake_name := c9name }, defaultArea,
       [Event.areaSend "CT" [PyVal.str c9name, PyVal.str "hi"],
        Event.ownerSend "CT" [PyVal.str ("[A1]" ++ c9name), PyVal.str "hi"],
        Event.logRoom "ooc"]) := rfl

/-- Claim C9 (amended: the length cap is AT MOST 30 characters, names
are rejected only when strictly longer): after name resolution, the
effective OOC name must be non-empty, at most 30 characters, free of
Unicode format-category characters, and must not begin with the
hostname banner or the two reserved prefixes; each violation, checked
in this order, emits its specific private notice and aborts the
command before any broadcast or delegation. -/
theorem c9_amended (ctx : Ctx) (cl : Client) (ar : Area) (a0 a1 : String)
    (hchk : cl.is_checked = true) (hmut : cl.is_ooc_muted = false)
    (h0 : a0.length ≠ 0) (h1 : a1.length ≠ 0) :
    ((ctResolveName ctx cl a0).name = "" →
      net_cmd_ct ctx cl ar [PyVal.str a0, PyVal.str a1] =
        (ctResolveName ctx cl a0, ar,
         [Event.sendOoc "You must insert a name with at least one letter"]))
    ∧ ((ctResolveName ctx cl a0).name ≠ "" →
       30 < (ctResolveName ctx cl a0).name.length →
      net_cmd_ct ctx cl ar [PyVal.str a0, PyVal.str a1] =
        (ctResolveName ctx cl a0, ar,
         [Event.sendOoc "Your OOC name is too long! Limit it to 30 characters."]))
    ∧ ((ctResolveName ctx cl a0).name ≠ "" →
       (ctResolveName ctx cl a0).name.length ≤ 30 →
       (ctResolveName ctx cl a0).name.data.any isCf = true →
      net_cmd_ct ctx cl ar [PyVal.str a0, PyVal.str a1] =
        (ctResolveName ctx cl a0, ar,
         [Event.sendOoc "You cannot use format characters in your name!"]))
    ∧ ((ctResolveName ctx cl a0).name ≠ "" →
       (ctResolveName ctx cl a0).name.length ≤ 30 →
       (ctResolveName ctx cl a0).name.data.any isCf = false →
       (pyStartsWith (ctResolveName ctx cl a0).name ctx.hostname ||
        pyStartsWith (ctResolveName ctx cl a0).name "<dollar>G" ||
        pyStartsWith (ctResolveName ctx cl a0).name "<dollar>M") = true →
      net_cmd_ct ctx cl ar [PyVal.str a0, PyVal.str a1] =
        (ctResolveName ctx cl a0, ar, [Event.sendOoc "That name is reserved!"])) := by
  have hlen : ¬(30 < (30:Nat)) := by omega
  refine ⟨?_, ?_, ?_, ?_⟩
  · intro hn
    simp [net_cmd_ct, validate_net_cmd, validateLoop, hchk, hmut, h0, h1, pyStrOf, hn]
  · intro hn hlong
    simp [net_cmd_ct, validate_net_cmd, validateLoop, hchk, hmut, h0, h1, pyStrOf,
      hn, hlong]
  · intro hn hshort hcf
    have hns : ¬(30 < (ctResolveName ctx cl a0).name.length) := by omega
    simp [net_cmd_ct, validate_net_cmd, validateLoop, hchk, hmut, h0, h1, pyStrOf,
      hn, hns, hcf]
  · intro hn hshort hcf hres
    have hns : ¬(30 < (ctResolveName ctx cl a0).name.length) := by omega
    simp [net_cmd_ct, validate_net_cmd, validateLoop, hchk, hmut, h0, h1, pyStrOf,
      hn, hns, hcf, hres]

/-- Witness for C9: a 31-character name draws the too-long notice and
nothing is broadcast, a zero-width-space name draws the
format-character notice, a reserved-prefix name draws the reserved
notice. -/
theorem c9_amended_witness :
    (net_cmd_ct defaultCtx
        { defaultClient with name := "A" ++ c9name, fake_name := "A" ++ c9name }
        defaultArea [PyVal.str ("A" ++ c9name), PyVal.str "hi"] =
      ({ defaultClient with name := "A" ++ c9name, fake_name := "A" ++ c9name },
       defaultArea,
       [Event.sendOoc "Your OOC name is too long! Limit it to 30 characters."]))
    ∧ (net_cmd_ct defaultCtx
        { defaultClient with name := "B\u200b", fake_name := "B\u200b" }
        defaultArea [PyVal.str "B\u200b", PyVal.str "hi"] =
      ({ defaultClient with name := "B\u200b", fake_name := "B\u200b" },
       defaultArea,
       [Event.sendOoc "You cannot use format characters in your name!"]))
    ∧ (net_cmd_ct defaultCtx
        { defaultClient with name := "<dollar>Gx", fake_name := "<dollar>Gx" }
        defaultArea [PyVal.str "<dollar>Gx", PyVal.str "hi"] =
      ({ defaultClient with name := "<dollar>Gx", fake_name := "<dollar>Gx" },
       defaultArea, [Event.sendOoc "That name is reserved!"])) := by
  refine ⟨?_, ?_, ?_⟩
  · exact (c9_amended defaultCtx
      { defaultClient with name := "A" ++ c9name, fake_name := "A" ++ c9name }
      defaultArea ("A" ++ c9name) "hi" rfl rfl (by decide) (by decide)).2.1
      (by decide) (by decide)
  · exact (c9_amended defaultCtx
      { defaultClient with name := "B\u200b", fake_name := "B\u200b" }
      defaultArea "B\u200b" "hi" rfl rfl (by decide) (by decide)).2.2.1
      (by decide) (by decide) (by decide)
  · exact (c9_amended defaultCtx
      { defaultClient with name := "<dollar>Gx", fake_name := "<dollar>Gx" }
      defaultArea "<dollar>Gx" "hi" rfl rfl (by decide) (by decide)).2.2.2
      (by decide) (by decide) (by decide) (by decide)

/-- An iniswap policy that blocks everything (C1). -/
def c1ctx : Ctx := { defaultCtx with is_iniswap := fun _ _ _ _ _ => true }

/-- A 19-slot (2.6-dialect) IC message carrying the showname `Zed`. -/
def c1args : List PyVal :=
  [PyVal.str "chat", PyVal.str "", PyVal.str "F", PyVal.str "A",
   PyVal.str "hello", PyVal.str "wit", PyVal.str "1", PyVal.str "0",
   PyVal.str "0", PyVal.str "0", PyVal.str "0", PyVal.str "0", PyVal.str "0",
   PyVal.str "0", PyVal.str "0", PyVal.str "Zed", PyVal.str "-1",
   PyVal.str "0", PyVal.str "0"]

/-- Counterexample for C1: a client whose showname is `Bob` sends an
IC message with showname `Zed` in a room that allows showname changes;
the message is then dropped by the iniswap check (a validation
occurring after showname processing), yet the client's showname has
already been changed to `Zed` — an observable side effect of a
partially validated command, which the claim forbids. -/
theorem c1_counterexample :
    (net_cmd_ms c1ctx { defaultClient with showname := "Bob" } defaultArea c1args =
      Except.ok ({ defaultClient with showname := "Zed" }, defaultArea,
        [Event.sendOoc "Iniswap/custom emotes are blocked in this area"]))
    ∧ ("Zed" : String) ≠ "Bob" := ⟨rfl, by decide⟩

/-- Claim C1 (amended: the showname write is exempt): an IC message
that passes the authentication, mute and room-permission checks,
resolves to some dialect, passes the showname policy, and is then
dropped by the iniswap check emits exactly one private notice, no
broadcast, and leaves the room and every client field except the
showname unchanged — but the client's showname HAS already been set to
the message's showname field. -/
theorem c1_amended (ctx : Ctx) (cl : Client) (ar : Area) (args : List PyVal)
    (v : MsVars)
    (hchk : cl.is_checked = true) (hmut : cl.is_muted = false)
    (hsend : ctx.can_send_message cl = true)
    (hres : msResolve cl.char_id args = Except.ok (some v))
    (hshow : ¬(0 < v.showname.length ∧ ar.showname_changes_allowed = false))
    (hins : ctx.is_iniswap { cl with showname := v.showname }
      v.pre v.anim v.folder v.sfx = true) :
    net_cmd_ms ctx cl ar args =
      Except.ok ({ cl with showname := v.showname }, ar,
        [Event.sendOoc "Iniswap/custom emotes are blocked in this area"]) := by
  have hins2 := hins
  simp only [hchk, hmut] at hins2
  simp [net_cmd_ms, hchk, hmut, hsend, hres, msPolicy, stepBindE, hshow, hins2]

/-- A 19-slot IC message carrying the showname `Ann` (C1 witness). -/
def c1wargs : List PyVal :=
  [PyVal.str "chat", PyVal.str "", PyVal.str "F", PyVal.str "A",
   PyVal.str "hello", PyVal.str "wit", PyVal.str "1", PyVal.str "0",
   PyVal.str "0", PyVal.str "0", PyVal.str "0", PyVal.str "0", PyVal.str "0",
   PyVal.str "0", PyVal.str "0", PyVal.str "Ann", PyVal.str "-1",
   PyVal.str "0", PyVal.str "0"]

/-- The resolved local variables of `c1wargs` (C1 witness). -/
def c1wv : MsVars :=
  { msg_type := "chat", pre := "", folder := "F", anim := "A", text := "hello",
    pos := "wit", sfx := "1", anim_type := 0, cid := 0, sfx_delay := 0,
    button := PyVal.str "0", evidence := 0, flip := 0, ding := 0, color := 0,
    showname := "Ann", charid_pair := -1, offset_pair := "0", nonint_pre := 0,
    sfx_looping := "0", screenshake := 0, frames_shake := "",
    frames_realization := "", frames_sfx := "", additive := 0, effect := "",
    pair_order := PyVal.int 0, target_area := [],
    args := [PyVal.str "chat", PyVal.str "", PyVal.str "F", PyVal.str "A",
      PyVal.str "hello", PyVal.str "wit", PyVal.str "1", PyVal.int 0,
      PyVal.int 0, PyVal.int 0, PyVal.str "0", PyVal.int 0, PyVal.int 0,
      PyVal.int 0, PyVal.int 0, PyVal.str "Ann", PyVal.int (-1),
      PyVal.str "0", PyVal.int 0] }

/-- Witness for C1 (amended): the iniswap-dropped message leaves only
the private notice behind, with the showname updated to `Ann`. -/
theorem c1_amended_witness :
    net_cmd_ms c1ctx defaultClient defaultArea c1wargs =
      Except.ok ({ defaultClient with showname := "Ann" }, defaultArea,
        [Event.sendOoc "Iniswap/custom emotes are blocked in this area"]) :=
  c1_amended c1ctx defaultClient defaultArea c1wargs c1wv rfl rfl rfl rfl
    (by decide) rfl

/-- A 15-slot (pre-2.6) IC message whose text is a single space. -/
def c6args : List PyVal :=
  [PyVal.str "chat", PyVal.str "", PyVal.str "F", PyVal.str "A", PyVal.str " ",
   PyVal.str "wit", PyVal.str "1", PyVal.str "0", PyVal.str "0", PyVal.str "0",
   PyVal.str "0", PyVal.str "0", PyVal.str "0", PyVal.str "0", PyVal.str "0"]

/-- The room's recorded last IC message: same character id (field 8)
and the same single-space text (field 4) as `c6args` produces. -/
def c6last : List PyVal :=
  [PyVal.str "chat", PyVal.str "", PyVal.str "F", PyVal.str "A", PyVal.str " ",
   PyVal.str "wit", PyVal.str "1", PyVal.int 0, PyVal.int 0, PyVal.int 0,
   PyVal.str "0", PyVal.int 0, PyVal.int 0, PyVal.int 0, PyVal.int 0,
   PyVal.str "", PyVal.int (-1), PyVal.str "", PyVal.str "", PyVal.str "",
   PyVal.str "0", PyVal.int 0, PyVal.int 0, PyVal.str "0", PyVal.int 0,
   PyVal.str "", PyVal.str "", PyVal.str "", PyVal.int 0, PyVal.str ""]

/-- A room (blankposting allowed) whose last IC message is `c6last`. -/
def c6area : Area := { defaultArea with last_ic_message := some c6last }

/-- Counterexample for C6: the transformed text `" "` is non-empty and
equals, after trimming trailing whitespace, the text of the room's
last recorded IC message from the same character id, so the claim says
the message is rejected with a notice and not broadcast; but the guard
additionally requires `msg.strip() != ''`, which fails for
whitespace-only text, so the message IS broadcast and no repeat notice
is sent. -/
theorem c6_counterexample :
    ((runEvents (net_cmd_ms defaultCtx defaultClient c6area c6args)).any
      isMsBroadcast = true)
    ∧ ((runEvents (net_cmd_ms defaultCtx defaultClient c6area c6args)).contains
      (Event.sendOoc "Your message is a repeat of the last one. Don\x27t spam!")
      = false) := ⟨rfl, rfl⟩

/-- The guard never fires for a message from a different character
id: `cid == last_ic_message[8]` fails. -/
theorem c6_guard_cid (cid c2 : Int) (msg : String) (l : List PyVal)
    (h8 : l.get? 8 = some (PyVal.int c2)) (hne : c2 ≠ cid) :
    msSpamHit cid msg (some l) = Except.ok false := by
  have h8g : l[8]? = some (PyVal.int c2) := by simpa using h8
  have hbeq : (cid == c2) = false := by
    simp [hne]
    omega
  by_cases hs : pyStrip msg = ""
  · simp [msSpamHit, hs]
  · simp [msSpamHit, hs, h8g, pyEqB, hbeq]

/-- The guard never fires when the rstripped texts differ. -/
theorem c6_guard_text (cid : Int) (msg : String) (l : List PyVal) (l8 : PyVal)
    (s4 : String)
    (h8 : l.get? 8 = some l8) (h4 : l.get? 4 = some (PyVal.str s4))
    (hne : pyRstrip msg ≠ pyRstrip s4) :
    msSpamHit cid msg (some l) = Except.ok false := by
  have h8g : l[8]? = some l8 := by simpa using h8
  have h4g : l[4]? = some (PyVal.str s4) := by simpa using h4
  by_cases hs : pyStrip msg = ""
  · simp [msSpamHit, hs]
  · cases l8 with
    | str s => simp [msSpamHit, hs, h8g, pyEqB]
    | int c2 =>
      by_cases hc : (cid == c2) = true
      · simp [msSpamHit, hs, h8g, h4g, pyEqB, hc, hne]
      · simp [msSpamHit, hs, h8g, pyEqB, hc]

/-- Every message that gets past the guard and broadcasts overwrites
the room's last-recorded fingerprint with its own transformed text
(field 4) and character id (field 8): the guard state is reset by each
intervening message.  (`ar.is_testifying = false` keeps the oracle
`add_statement`, which in the source never touches
`last_ic_message`, out of the run.) -/
theorem c6_guard_reset (ctx : Ctx) (cl : Client) (ar : Area) (v : MsVars)
    (cl2 : Client) (ar2 : Area) (evs : List Event)
    (htest : ar.is_testifying = false)
    (hguard : msSpamHit v.cid (msgTransform ctx cl v.text) ar.last_ic_message =
      Except.ok false)
    (hok : msFinal ctx cl ar v = Except.ok (cl2, ar2, evs)) :
    ∃ sa, ar2.last_ic_message = some sa ∧
      sa.get? 4 = some (PyVal.str (msgTransform ctx cl v.text)) ∧
      sa.get? 8 = some (PyVal.int v.cid) := by
  unfold msFinal at hok
  dsimp only at hok
  rw [hguard] at hok
  dsimp only at hok
  split at hok
  · exact absurd hok (by simp)
  · rename_i fr arF eviEvs hflip
    split at hok
    · exact absurd hok (by simp)
    · rename_i x g hEvi
      have harF : arF.is_testifying = false := by
        split at hflip
        · split at hflip
          · exact absurd hflip (by simp)
          · split at hflip
            · simp only [Except.ok.injEq, Prod.mk.injEq] at hflip
              rw [← hflip.1]
              exact htest
            · simp only [Except.ok.injEq, Prod.mk.injEq] at hflip
              rw [← hflip.1]
              exact htest
        · simp only [Except.ok.injEq, Prod.mk.injEq] at hflip
          rw [← hflip.1]
          exact htest
      rw [apply_ite Area.is_testifying] at hok
      dsimp only at hok
      rw [ite_self, harF] at hok
      simp only [Bool.false_eq_true, if_false] at hok
      simp only [Except.ok.injEq, Prod.mk.injEq] at hok
      obtain ⟨h1, h2, h3⟩ := hok
      have hlast := congrArg Area.last_ic_message h2
      rw [apply_ite Area.last_ic_message] at hlast
      dsimp only at hlast
      rw [ite_self] at hlast
      exact ⟨_, hlast.symm, rfl, rfl⟩

/-- Claim C6 (amended: the transformed text must be non-BLANK, i.e.
contain a non-whitespace character, rather than merely non-empty):
(1) when the room's last recorded IC message exists, was sent from the
same character id, and its text equals the new transformed text after
trimming trailing whitespace, the message is rejected with the repeat
notice, nothing is broadcast, and client and room are unchanged;
(2) the same text sent from a different character id is not rejected
by this guard; (3) nor is a text that differs after trimming trailing
whitespace; and (4) every message that passes the guard and broadcasts
overwrites the room's last-message fingerprint with its own text and
character id, so an intervening different message resets the guard. -/
theorem c6_amended :
    (∀ (ctx : Ctx) (cl : Client) (ar : Area) (v : MsVars) (l : List PyVal)
       (s4 : String),
      pyStrip (msgTransform ctx cl v.text) ≠ "" →
      ar.last_ic_message = some l →
      l.get? 8 = some (PyVal.int v.cid) →
      l.get? 4 = some (PyVal.str s4) →
      pyRstrip (msgTransform ctx cl v.text) = pyRstrip s4 →
      msFinal ctx cl ar v =
        Except.ok (cl, ar,
          [Event.sendOoc "Your message is a repeat of the last one. Don\x27t spam!"]))
    ∧ (∀ (cid c2 : Int) (msg : String) (l : List PyVal),
        l.get? 8 = some (PyVal.int c2) → c2 ≠ cid →
        msSpamHit cid msg (some l) = Except.ok false)
    ∧ (∀ (cid : Int) (msg : String) (l : List PyVal) (l8 : PyVal) (s4 : String),
        l.get? 8 = some l8 → l.get? 4 = some (PyVal.str s4) →
        pyRstrip msg ≠ pyRstrip s4 →
        msSpamHit cid msg (some l) = Except.ok false)
    ∧ (∀ (ctx : Ctx) (cl : Client) (ar : Area) (v : MsVars) (cl2 : Client)
       (ar2 : Area) (evs : List Event),
        ar.is_testifying = false →
        msSpamHit v.cid (msgTransform ctx cl v.text) ar.last_ic_message =
          Except.ok false →
        msFinal ctx cl ar v = Except.ok (cl2, ar2, evs) →
        ∃ sa, ar2.last_ic_message = some sa ∧
          sa.get? 4 = some (PyVal.str (msgTransform ctx cl v.text)) ∧
          sa.get? 8 = some (PyVal.int v.cid)) := by
  refine ⟨?_, c6_guard_cid, c6_guard_text, c6_guard_reset⟩
  intro ctx cl ar v l s4 h1 h2 h3 h4 h5
  have hguard : msSpamHit v.cid (msgTransform ctx cl v.text) ar.last_ic_message =
      Except.ok true := by
    have h3g : l[8]? = some (PyVal.int v.cid) := by simpa using h3
    have h4g : l[4]? = some (PyVal.str s4) := by simpa using h4
    simp [msSpamHit, h1, h2, h3g, h4g, h5, pyEqB]
  simp [msFinal, hguard]

/-- The last recorded IC message for the C6 witness: text `hello` from
character id 0. -/
def c6wl : List PyVal :=
  [PyVal.str "chat", PyVal.str "", PyVal.str "F", PyVal.str "A",
   PyVal.str "hello", PyVal.str "wit", PyVal.str "1", PyVal.int 0,
   PyVal.int 0, PyVal.int 0, PyVal.str "0", PyVal.int 0, PyVal.int 0,
   PyVal.int 0, PyVal.int 0, PyVal.str "", PyVal.int (-1), PyVal.str "",
   PyVal.str "", PyVal.str "", PyVal.str "0", PyVal.int 0, PyVal.int 0,
   PyVal.str "0", PyVal.int 0, PyVal.str "", PyVal.str "", PyVal.str "",
   PyVal.int 0, PyVal.str ""]

/-- Local variables of an IC message repeating the text `hello` (C6
witness). -/
def c6wv : MsVars :=
  { msg_type := "chat", pre := "", folder := "F", anim := "A", text := "hello",
    pos := "wit", sfx := "1", anim_type := 0, cid := 0, sfx_delay := 0,
    button := PyVal.str "0", evidence := 0, flip := 0, ding := 0, color := 0,
    showname := "", charid_pair := -1, offset_pair := "", nonint_pre := 0,
    sfx_looping := "0", screenshake := 0, frames_shake := "",
    frames_realization := "", frames_sfx := "", additive := 0, effect := "",
    pair_order := PyVal.int 0, target_area := [], args := [] }

/-- The last recorded IC message for the different-character-id case
of the C6 witness: text `hello` from character id 1. -/
def c6wl2 : List PyVal := c6wl.set 8 (PyVal.int 1)

/-- Witness for C6 (amended): repeating `hello` from the same
character id draws exactly the repeat notice; the same text from
character id 1 does not trip the guard; the text `bye` does not trip
the guard against `hello`; and a broadcast message becomes the room's
new fingerprint (text and character id). -/
theorem c6_amended_witness :
    (msFinal defaultCtx defaultClient
      { defaultArea with last_ic_message := some c6wl } c6wv =
      Except.ok (defaultClient,
        { defaultArea with last_ic_message := some c6wl },
        [Event.sendOoc "Your message is a repeat of the last one. Don\x27t spam!"]))
    ∧ (msSpamHit 0 "hello" (some c6wl2) = Except.ok false)
    ∧ (msSpamHit 0 "bye" (some c6wl) = Except.ok false)
    ∧ (∃ sa,
        (runArea (msFinal defaultCtx defaultClient defaultArea c6wv)).last_ic_message
          = some sa ∧
        sa.get? 4 =
          some (PyVal.str (msgTransform defaultCtx defaultClient c6wv.text)) ∧
        sa.get? 8 = some (PyVal.int c6wv.cid)) := by
  refine ⟨?_, ?_, ?_, ?_⟩
  · exact c6_amended.1 defaultCtx defaultClient
      { defaultArea with last_ic_message := some c6wl } c6wv c6wl "hello"
      (by decide) rfl (by decide) (by decide) (by decide)
  · exact c6_amended.2.1 0 1 "hello" c6wl2 (by decide) (by decide)
  · exact c6_amended.2.2.1 0 "bye" c6wl (PyVal.int 0) "hello"
      (by decide) (by decide) (by decide)
  · exact c6_amended.2.2.2 defaultCtx defaultClient defaultArea c6wv
      (runClient (msFinal defaultCtx defaultClient defaultArea c6wv))
      (runArea (msFinal defaultCtx defaultClient defaultArea c6wv))
      (runEvents (msFinal defaultCtx defaultClient defaultArea c6wv))
      rfl rfl rfl

/-- Claim C5: with a requested pair id (the id just stored on the
sender), pairing is confirmed iff some client in the room has the
requested character id, itself requests the sender's character id, is
a distinct client, and occupies the sender's position; without such a
partner the outgoing paired-id field is forced to `-1`, and with one
the partner's offset, last sprite, flip flag and claimed folder are
attached to the outgoing fields. -/
theorem c5_pairing (cl : Client) (clients : List Client) (cp : Int) (po : PyVal)
    (hcp : cl.charid_pair = cp) (hgt : -1 < cp) :
    ((pairScan cl clients cp po).confirmed = true ↔
      ∃ t ∈ clients, t.char_id = cp ∧ t.charid_pair = cl.char_id ∧
        t.id ≠ cl.id ∧ t.pos = cl.pos)
    ∧ ((pairScan cl clients cp po).confirmed = false →
        (pairScan cl clients cp po).charid_out = PyVal.int (-1))
    ∧ ((pairScan cl clients cp po).confirmed = true →
        ∃ t ∈ clients, t.char_id = cp ∧ t.charid_pair = cl.char_id ∧
          t.id ≠ cl.id ∧ t.pos = cl.pos ∧
          (pairScan cl clients cp po).other_offset = t.offset_pair ∧
          (pairScan cl clients cp po).other_emote = t.last_sprite ∧
          (pairScan cl clients cp po).other_flip = t.flip ∧
          (pairScan cl clients cp po).other_folder = t.claimed_folder) := by
  unfold pairScan
  rw [if_pos hgt]
  cases h : clients.find? (pairMatch cl) with
  | none =>
    refine ⟨?_, ?_, ?_⟩
    · simp only [Bool.false_eq_true, false_iff]
      rintro ⟨t, ht, h1, h2, h3, h4⟩
      have hnp := List.find?_eq_none.mp h t ht
      rw [pairMatch] at hnp
      simp [hcp, h1, h2, h3, h4] at hnp
    · intro
      rfl
    · intro hc
      simp at hc
  | some t =>
    have hp : pairMatch cl t = true := List.find?_some h
    have hm : t ∈ clients := List.mem_of_find?_eq_some h
    rw [pairMatch] at hp
    simp only [Bool.and_eq_true, beq_iff_eq, bne_iff_ne] at hp
    obtain ⟨⟨⟨e1, e2⟩, e3⟩, e4⟩ := hp
    rw [hcp] at e1
    refine ⟨?_, ?_, ?_⟩
    · simp only [true_iff]
      exact ⟨t, hm, e1, e2, e3, e4⟩
    · intro hc
      simp at hc
    · intro
      exact ⟨t, hm, e1, e2, e3, e4, rfl, rfl, rfl, rfl⟩

/-- The sender of the C5 witness: character 5 requesting character 7. -/
def c5cl : Client := { defaultClient with char_id := 5, charid_pair := 7 }

/-- The reciprocal partner of the C5 witness: character 7 requesting
character 5 at the same position. -/
def c5partner : Client :=
  { defaultClient with
    id := 1, char_id := 7, charid_pair := 5, offset_pair := "off",
    last_sprite := "em", flip := 1, claimed_folder := "fold" }

/-- Witness for C5: the reciprocal same-position pair is confirmed. -/
theorem c5_pairing_witness :
    (pairScan c5cl [c5partner] 7 (PyVal.int 0)).confirmed = true :=
  (c5_pairing c5cl [c5partner] 7 (PyVal.int 0) rfl (by decide)).1.mpr
    ⟨c5partner, by simp, rfl, rfl, by decide, rfl⟩

/-- Replacing an `INT_OR_STR` slot by a `STR` slot changes nothing in
the validator loop: neither coerces, both require non-emptiness. -/
theorem validateLoop_swap (ts1 : List ArgType) (args : List PyVal) (ts2 : List ArgType) :
    validateLoop args (ts1 ++ ArgType.INT_OR_STR :: ts2) =
    validateLoop args (ts1 ++ ArgType.STR :: ts2) := by
  induction ts1 generalizing args with
  | nil =>
    cases args with
    | nil => rfl
    | cons a as => simp [validateLoop]
  | cons t ts ih =>
    cases args with
    | nil => rfl
    | cons a as => simp [validateLoop, ih]

/-- The validator loop only ever rewrites `INT` slots: every other
slot of the argument list comes out exactly as it went in. -/
theorem validateLoop_get?_preserve (args : List PyVal) (ts : List ArgType) (i : Nat)
    (h : ts.get? i ≠ some ArgType.INT) :
    (validateLoop args ts).2.get? i = args.get? i := by
  induction args generalizing ts i with
  | nil => cases ts <;> rfl
  | cons a as ih =>
    cases ts with
    | nil => rfl
    | cons t ts' =>
      by_cases h0 : (pyStrOf a).length = 0 ∧ t ≠ ArgType.STR_OR_EMPTY
      · simp [validateLoop, h0]
      · by_cases h1 : t = ArgType.INT
        · subst h1
          cases i with
          | zero =>
            exact absurd (show (ArgType.INT :: ts').get? 0 = some ArgType.INT from rfl) h
          | succ j =>
            cases hc : pyToInt a with
            | none => simp [validateLoop, h0, hc]
            | some n =>
              simp only [validateLoop, h0, hc, if_false, if_true, ite_false, ite_true]
              simp only [List.get?_cons_succ]
              exact ih ts' j (by simpa using h)
        · cases i with
          | zero => simp [validateLoop, h0, h1]
          | succ j =>
            simp only [validateLoop, h0, h1]
            simp only [List.get?_cons_succ]
            exact ih ts' j (by simpa using h)

/-- Claim C10: `INT_OR_STR` carries the value `3` while `INT` carries
the one-element tuple `(3,)`, so the two enum members are distinct and
`validate_net_cmd` treats an `INT_OR_STR` slot exactly like a `STR`
slot — the argument is accepted precisely when non-empty and is never
coerced to an integer; hence after any successful IC dialect
validation the button slot (index 10, an `INT_OR_STR` slot in all
three dialects) is still a string, and the int-tuple membership test
`button in (1, 2, 3, 4, 23)` of the non-interrupting-preemption
downgrade never holds. -/
theorem c10_int_or_str :
    (argTypeValue ArgType.INT ≠ argTypeValue ArgType.INT_OR_STR)
    ∧ (∀ (char_id : Int) (na : Bool) (args : List PyVal) (ts1 ts2 : List ArgType),
        validate_net_cmd char_id args (ts1 ++ ArgType.INT_OR_STR :: ts2) na =
          validate_net_cmd char_id args (ts1 ++ ArgType.STR :: ts2) na)
    ∧ (∀ d ∈ [msTypes1, msTypes2, msTypes3], ∀ (char_id : Int) (args res : List PyVal),
        (∀ a ∈ args, ∃ s, a = PyVal.str s) →
        validate_net_cmd char_id args d true = (true, res) →
        ∃ s, res.get? 10 = some (PyVal.str s))
    ∧ (∀ s : String, pyInInts (PyVal.str s) [1, 2, 3, 4, 23] = false) := by
  refine ⟨by decide, ?_, ?_, ?_⟩
  · intro char_id na args ts1 ts2
    simp only [validate_net_cmd, List.length_append, List.length_cons, validateLoop_swap]
  · intro d hd char_id args res hstr hval
    unfold validate_net_cmd at hval
    split at hval
    · simp at hval
    · split at hval
      · simp at hval
      · rename_i hauth hlen
        have hlen' : args.length = d.length := by omega
        have hne : d.get? 10 ≠ some ArgType.INT := by
          fin_cases hd <;> decide
        have hd10 : 10 < d.length := by
          fin_cases hd <;> decide
        have hpres := validateLoop_get?_preserve args d 10 hne
        have hr : res.get? 10 = args.get? 10 := by
          rw [← hpres, hval]
        have h10 : 10 < args.length := by omega
        cases hga : args.get? 10 with
        | none =>
          rw [List.get?_eq_none] at hga
          omega
        | some a =>
          obtain ⟨s, hs⟩ := hstr a (List.get?_mem hga)
          exact ⟨s, by rw [hr, hga, hs]⟩
  · intro s
    rfl

/-- A 15-slot IC argument list as received from the wire (all slots
strings), for the C10 witness. -/
def c10args : List PyVal :=
  [PyVal.str "chat", PyVal.str "", PyVal.str "F", PyVal.str "A",
   PyVal.str "hey", PyVal.str "wit", PyVal.str "1", PyVal.str "0",
   PyVal.str "0", PyVal.str "0", PyVal.str "0", PyVal.str "0", PyVal.str "0",
   PyVal.str "0", PyVal.str "0"]

/-- Witness for C10: after a successful pre-2.6 validation the button
slot is still a string. -/
theorem c10_int_or_str_witness :
    ∃ s, ((validate_net_cmd 0 c10args msTypes1 true).2.get? 10) =
      some (PyVal.str s) :=
  c10_int_or_str.2.2.1 msTypes1 (by simp) 0 c10args
    (validate_net_cmd 0 c10args msTypes1 true).2
    (by intro a ha; fin_cases ha <;> exact ⟨_, rfl⟩)
    rfl

end AO
